import Mathlib

/-!
# Globed: player interpolation engine, server connection packets, settings and packet log

A shallow embedding of `src/game/interpolator.cpp`, of the packet declarations of
`src/data/packets/server/connection.hpp`, of the reflection loop of
`src/managers/settings.cpp` and of the packet log summary of `src/util/debugging.cpp`, and
the properties of them that the specification states.

Modelling conventions.

* C++ `float` values are modelled by exact rationals (`ℚ`).  Rounding, infinities
  and NaN are outside the model; every comparison and arithmetic operation of the
  source is kept, with its operands in the source's order.  Division is the total division
  of `ℚ` (a zero denominator gives 0, where IEEE arithmetic gives an infinity or NaN).
* `std::unordered_map<uint32_t, PlayerState>` is a finite partial map; it is modelled by
  a function from ids to `Option PlayerState`.  `players.at(id)` throws
  `std::out_of_range` on an absent id, which is modelled by `Except.error`.  In every method
  that can throw, `players.at` is the first statement, so a call that ends in `Except.error`
  has written nothing and the interpolator after it is the one before it.
* `totalFrames` is a `size_t` counter that is incremented once per received sample; it is
  modelled by a natural number, since the counter cannot wrap around before 2^64 samples
  have been received.
* The calls into `LerpLogger` and `Benchmarker` only write to debugging facilities and
  never touch the interpolator, so they have no counterpart here.
* The other `size_t` counters (the totals of the packet log summary) are natural numbers
  as well.  Where a float division has to be observable, the embedding returns the
  (numerator, denominator) pairs of the divisions it evaluated next to its result.
* The packet classes are embedded twice: as a table of declarations (ids, names, members,
  serialized field lists) and as a sum type of payloads.  The byte-level codec is not in the
  sources at hand and is modelled from the encoding rules of the specification.
-/

namespace Globed

/-! ## Shared primitives -/

namespace util.math

/-- Modelled from the spec: `util::math::equal` lives in `util/math.hpp`, which is not part
of the sources at hand.  The specification describes it as "float equality with epsilon":
two values are equal when their distance is below the error margin.  The margin itself is a
constant of that header and is taken as a parameter. -/
def equal (errorMargin val1 val2 : ℚ) : Bool :=
  decide (|val2 - val1| < errorMargin)

end util.math

/-- The C++ standard library function `std::lerp(a, b, t)`, i.e. `a + t (b - a)`. -/
def stdLerp (a b t : ℚ) : ℚ :=
  a + t * (b - a)

/-- Modelled from the spec: the enumeration of icon shapes is declared in
`data/types/gd.hpp`, which is not part of the sources at hand.  The interpolator only
distinguishes `Spider` from the other shapes. -/
inductive PlayerIconType where
  | Unknown
  | Cube
  | Ship
  | Ball
  | Ufo
  | Wave
  | Robot
  | Spider
  | Swing
  | Jetpack
  deriving DecidableEq, Repr

/-- A 2-D point of the host engine (`cocos2d::CCPoint`). -/
structure CCPoint where
  x : ℚ
  y : ℚ
  deriving DecidableEq, Repr

/-- The host engine's `CCPoint::lerp`: `*this * (1 - alpha) + other * alpha`, component by
component. -/
def CCPoint.lerp (self other : CCPoint) (alpha : ℚ) : CCPoint :=
  { x := self.x * (1 - alpha) + other.x * alpha
    y := self.y * (1 - alpha) + other.y * alpha }

/-! ## Data model -/

/-- Modelled from the spec: the per-icon visual data (`data/types/gd.hpp`, not part of the
sources at hand): position, rotation, icon shape and the boolean flags. -/
structure SpecificIconData where
  position : CCPoint
  rotation : ℚ
  iconType : PlayerIconType
  isVisible : Bool
  isLookingLeft : Bool
  isUpsideDown : Bool
  isDashing : Bool
  isMini : Bool
  deriving DecidableEq, Repr

/-- The render-ready pose of a player: one `SpecificIconData` per icon. -/
structure VisualPlayerState where
  player1 : SpecificIconData
  player2 : SpecificIconData
  deriving DecidableEq, Repr

/-- One authoritative sample as it arrives from the network.  Only the members that the
interpolator reads are kept. -/
structure PlayerData where
  timestamp : ℚ
  player1 : SpecificIconData
  player2 : SpecificIconData
  lastDeathTimestamp : ℚ
  deriving DecidableEq, Repr

/-- A value-initialised `SpecificIconData` (`{}`). -/
def SpecificIconData.zero : SpecificIconData :=
  { position := { x := 0, y := 0 }
    rotation := 0
    iconType := PlayerIconType.Unknown
    isVisible := false
    isLookingLeft := false
    isUpsideDown := false
    isDashing := false
    isMini := false }

/-- A value-initialised `VisualPlayerState` (`{}`). -/
def VisualPlayerState.zero : VisualPlayerState :=
  { player1 := SpecificIconData.zero, player2 := SpecificIconData.zero }

/-- A timestamped sample held by the interpolator (`PlayerInterpolator::LerpFrame`). -/
structure LerpFrame where
  timestamp : ℚ
  visual : VisualPlayerState
  deriving DecidableEq, Repr

/-- The default constructor `LerpFrame::LerpFrame()`. -/
def LerpFrame.new : LerpFrame :=
  { timestamp := 0, visual := VisualPlayerState.zero }

/-- The converting constructor `LerpFrame::LerpFrame(const PlayerData&)`. -/
def LerpFrame.ofPlayerData (data : PlayerData) : LerpFrame :=
  { timestamp := data.timestamp
    visual := { player1 := data.player1, player2 := data.player2 } }

/-- Modelled from the spec: `PlayerInterpolator::PlayerState` is declared in
`interpolator.hpp`, which is not part of the sources at hand.  The members are the ones
that `interpolator.cpp` uses. -/
structure PlayerState where
  olderFrame : LerpFrame
  newerFrame : LerpFrame
  updateCounter : ℚ
  timeCounter : ℚ
  totalFrames : Nat
  lastDeathTimestamp : ℚ
  pendingRealFrame : Bool
  pendingDeath : Bool
  interpolatedState : VisualPlayerState
  deriving DecidableEq, Repr

/-- The state `PlayerState {}` that `addPlayer` stores for a new player: default frames,
zero counters, no pending event. -/
def PlayerState.new : PlayerState :=
  { olderFrame := LerpFrame.new
    newerFrame := LerpFrame.new
    updateCounter := 0
    timeCounter := 0
    totalFrames := 0
    lastDeathTimestamp := 0
    pendingRealFrame := false
    pendingDeath := false
    interpolatedState := VisualPlayerState.zero }

/-- The settings given to the interpolator at construction. -/
structure InterpolatorSettings where
  realtime : Bool
  expectedDelta : ℚ
  deriving DecidableEq, Repr

/-- The exception thrown by `std::unordered_map::at` for an absent key. -/
inductive Exception where
  | out_of_range
  deriving DecidableEq, Repr

/-- The interpolator: its settings and the map of tracked players. -/
structure PlayerInterpolator where
  settings : InterpolatorSettings
  players : Nat → Option PlayerState

/-! ## Operations -/

namespace PlayerInterpolator

/-- The method `addPlayer`, i.e. `players.emplace(playerId, PlayerState {})`: inserts a fresh
state unless the id is
already present. -/
def addPlayer (self : PlayerInterpolator) (playerId : Nat) : PlayerInterpolator :=
  match self.players playerId with
  | some _ => self
  | none => { self with players := Function.update self.players playerId (some PlayerState.new) }

/-- The method `removePlayer`, i.e. `players.erase(playerId)`; erasing an absent key does
nothing and never throws. -/
def removePlayer (self : PlayerInterpolator) (playerId : Nat) : PlayerInterpolator :=
  { self with players := Function.update self.players playerId none }

/-- The body of `updatePlayer`, acting on the referenced `PlayerState`. -/
def updatePlayerState (errorMargin : ℚ) (settings : InterpolatorSettings)
    (data : PlayerData) (updateCounter : ℚ) (player : PlayerState) : PlayerState :=
  let player := { player with
    updateCounter := updateCounter
    pendingRealFrame := true
    totalFrames := player.totalFrames + 1 }
  let player :=
    if !(util.math.equal errorMargin player.lastDeathTimestamp data.lastDeathTimestamp) then
      let player := { player with lastDeathTimestamp := data.lastDeathTimestamp }
      if player.totalFrames > 1 then { player with pendingDeath := true } else player
    else player
  if settings.realtime then
    let player := { player with
      interpolatedState := { player.interpolatedState with player1 := data.player1 } }
    { player with
      interpolatedState := { player.interpolatedState with player2 := data.player2 } }
  else
    let player := { player with olderFrame := player.newerFrame }
    let player := { player with newerFrame := LerpFrame.ofPlayerData data }
    { player with timeCounter := player.olderFrame.timestamp }

/-- The method `PlayerInterpolator::updatePlayer`: `players.at(playerId)` throws for an absent
id, otherwise the body runs on the stored state. -/
def updatePlayer (errorMargin : ℚ) (self : PlayerInterpolator) (playerId : Nat)
    (data : PlayerData) (updateCounter : ℚ) : Except Exception PlayerInterpolator :=
  match self.players playerId with
  | none => Except.error Exception.out_of_range
  | some player =>
    Except.ok { self with
      players := Function.update self.players playerId
        (some (updatePlayerState errorMargin self.settings data updateCounter player)) }

end PlayerInterpolator

/-- The static function `lerpSpecific`; `out` is the icon data that is written in place. -/
def lerpSpecific (older newer out : SpecificIconData) (lerpRatio : ℚ) : SpecificIconData :=
  let out := { out with
    iconType := older.iconType
    isDashing := older.isDashing
    isLookingLeft := older.isLookingLeft
    isUpsideDown := older.isUpsideDown
    isVisible := older.isVisible
    isMini := older.isMini }
  let out :=
    if out.iconType = PlayerIconType.Spider ∧ |older.position.y - newer.position.y| ≥ 33 then
      let out := { out with
        position := { out.position with x := stdLerp older.position.x newer.position.x lerpRatio } }
      { out with position := { out.position with y := older.position.y } }
    else
      { out with position := older.position.lerp newer.position lerpRatio }
  { out with rotation := stdLerp older.rotation newer.rotation lerpRatio }

/-- The static function `lerpPlayer`; `out` is the pose that is written in place. -/
def lerpPlayer (older newer out : VisualPlayerState) (lerpRatio : ℚ) : VisualPlayerState :=
  let out := { out with player1 := lerpSpecific older.player1 newer.player1 out.player1 lerpRatio }
  { out with player2 := lerpSpecific older.player2 newer.player2 out.player2 lerpRatio }

/-- The outcome of one iteration of the loop of `tick`: the player's new state, and the
float divisions that the iteration evaluated, as (numerator, denominator) pairs. -/
structure TickStep where
  player : PlayerState
  divisions : List (ℚ × ℚ)
  deriving DecidableEq, Repr

namespace PlayerInterpolator

/-- One iteration of the loop of `tick`, for one player. -/
def tickPlayer (settings : InterpolatorSettings) (dt : ℚ) (player : PlayerState) : TickStep :=
  if player.totalFrames < 2 then { player := player, divisions := [] }
  else
    let realFrameDelta := player.newerFrame.timestamp - player.olderFrame.timestamp
    let fakeFrameDelta := settings.expectedDelta
    if realFrameDelta = 0 then { player := player, divisions := [] }
    else
      let numerator := player.timeCounter - player.olderFrame.timestamp
      let lerpRatio := numerator / fakeFrameDelta
      let player := { player with
        interpolatedState :=
          lerpPlayer player.olderFrame.visual player.newerFrame.visual
            player.interpolatedState lerpRatio }
      let player := { player with timeCounter := player.timeCounter + dt }
      { player := player, divisions := [(numerator, fakeFrameDelta)] }

/-- The method `PlayerInterpolator::tick`: nothing in realtime mode, otherwise one loop iteration for
every tracked player. -/
def tick (self : PlayerInterpolator) (dt : ℚ) : PlayerInterpolator :=
  if self.settings.realtime then self
  else
    { self with
      players := fun playerId =>
        (self.players playerId).map (fun player => (tickPlayer self.settings dt player).player) }

/-- The loop of `tick` run entry by entry: `order` lists the keys of the map in the order in
which the range-based `for` visits them.  Every iteration rewrites the visited entry only;
the two `continue` statements are the branches of `tickPlayer` that return the entry as it
was, after which the loop goes on with the next key. -/
def tickLoop (settings : InterpolatorSettings) (dt : ℚ) :
    List Nat → (Nat → Option PlayerState) → (Nat → Option PlayerState)
  | [], players => players
  | playerId :: rest, players =>
    match players playerId with
    | none => tickLoop settings dt rest players
    | some player =>
      tickLoop settings dt rest
        (Function.update players playerId (some (tickPlayer settings dt player).player))

/-- Consecutive calls `tick(dt_1)`, ..., `tick(dt_k)` with nothing in between. -/
def tickMany (self : PlayerInterpolator) (deltas : List ℚ) : PlayerInterpolator :=
  deltas.foldl tick self

/-- The loop iteration of `tick` applied to one player once for every delta, in order. -/
def tickPlayerMany (settings : InterpolatorSettings) (deltas : List ℚ) (player : PlayerState) :
    PlayerState :=
  deltas.foldl (fun current dt => (tickPlayer settings dt current).player) player

/-- The float divisions that `tick` evaluates on behalf of the player `playerId`. -/
def tickDivisions (self : PlayerInterpolator) (dt : ℚ) (playerId : Nat) : List (ℚ × ℚ) :=
  if self.settings.realtime then []
  else
    match self.players playerId with
    | none => []
    | some player => (tickPlayer self.settings dt player).divisions

/-- The method `PlayerInterpolator::getPlayerState`. -/
def getPlayerState (self : PlayerInterpolator) (playerId : Nat) :
    Except Exception VisualPlayerState :=
  match self.players playerId with
  | none => Except.error Exception.out_of_range
  | some player => Except.ok player.interpolatedState

/-- The method `PlayerInterpolator::swapDeathStatus`: the returned flag and the interpolator after the
call. -/
def swapDeathStatus (self : PlayerInterpolator) (playerId : Nat) :
    Except Exception (Bool × PlayerInterpolator) :=
  match self.players playerId with
  | none => Except.error Exception.out_of_range
  | some state =>
    let death := state.pendingDeath
    let state := { state with pendingDeath := false }
    Except.ok (death, { self with players := Function.update self.players playerId (some state) })

/-- The method `PlayerInterpolator::isPlayerStale`.  The method only reads the interpolator, so the
result is the returned flag alone. -/
def isPlayerStale (errorMargin : ℚ) (self : PlayerInterpolator) (playerId : Nat)
    (lastServerPacket : ℚ) : Except Exception Bool :=
  match self.players playerId with
  | none => Except.error Exception.out_of_range
  | some player =>
    let uc := player.updateCounter
    Except.ok (decide (uc ≠ 0) && !(util.math.equal errorMargin uc lastServerPacket))

end PlayerInterpolator

/-! ## Server connection packets

The declarations of `src/data/packets/server/connection.hpp`: for every packet class the
arguments of `GLOBED_PACKET`, the data members in declaration order, and the field list
given to `GLOBED_SERIALIZABLE_STRUCT`. -/

/-- The C++ types of the data members of the server connection packets. -/
inductive CppType where
  | uint16_t
  | uint32_t
  | int64_t
  | std_string
  | bytevector
  | CryptoPublicKey
  | SpecialUserData
  | vector_GameServerRole
  deriving DecidableEq, Repr

/-- One packet class of `connection.hpp`. -/
structure PacketDecl where
  id : Nat
  name : String
  encrypted : Bool
  tcp : Bool
  members : List (String × CppType)
  serialized : List String
  deriving DecidableEq, Repr

/-- The thirteen packet classes of `connection.hpp`, in the order of the header. -/
def serverConnectionPackets : List PacketDecl :=
  [ { id := 20000, name := "PingResponsePacket", encrypted := false, tcp := false
      members := [("id", CppType.uint32_t), ("playerCount", CppType.uint32_t)]
      serialized := ["id", "playerCount"] },
    { id := 20001, name := "CryptoHandshakeResponsePacket", encrypted := false, tcp := false
      members := [("data", CppType.CryptoPublicKey)]
      serialized := ["data"] },
    { id := 20002, name := "KeepaliveResponsePacket", encrypted := false, tcp := false
      members := [("playerCount", CppType.uint32_t)]
      serialized := ["playerCount"] },
    { id := 20003, name := "ServerDisconnectPacket", encrypted := false, tcp := false
      members := [("message", CppType.std_string)]
      serialized := ["message"] },
    { id := 20004, name := "LoggedInPacket", encrypted := false, tcp := false
      members := [("tps", CppType.uint32_t), ("specialUserData", CppType.SpecialUserData),
        ("allRoles", CppType.vector_GameServerRole), ("secretKey", CppType.uint32_t)]
      serialized := ["tps", "specialUserData", "allRoles", "secretKey"] },
    { id := 20005, name := "LoginFailedPacket", encrypted := false, tcp := false
      members := [("message", CppType.std_string)]
      serialized := ["message"] },
    { id := 20006, name := "ServerNoticePacket", encrypted := false, tcp := false
      members := [("message", CppType.std_string)]
      serialized := ["message"] },
    { id := 20007, name := "ProtocolMismatchPacket", encrypted := false, tcp := false
      members := [("serverProtocol", CppType.uint16_t)]
      serialized := ["serverProtocol"] },
    { id := 20008, name := "KeepaliveTCPResponsePacket", encrypted := false, tcp := false
      members := []
      serialized := [] },
    { id := 20009, name := "ClaimThreadFailedPacket", encrypted := false, tcp := false
      members := []
      serialized := [] },
    { id := 20010, name := "ConnectionTestResponsePacket", encrypted := false, tcp := false
      members := [("uid", CppType.uint32_t), ("data", CppType.bytevector)]
      serialized := ["uid", "data"] },
    { id := 20011, name := "ServerBannedPacket", encrypted := false, tcp := false
      members := [("message", CppType.std_string), ("timestamp", CppType.int64_t)]
      serialized := ["message", "timestamp"] },
    { id := 20012, name := "ServerMutedPacket", encrypted := false, tcp := false
      members := [("reason", CppType.std_string), ("timestamp", CppType.int64_t)]
      serialized := ["reason", "timestamp"] } ]

/-- The field types that the wire catalogue of the specification uses; `unspecified` is a
field that the catalogue lists without a type. -/
inductive CatalogueType where
  | u16
  | u32
  | i64
  | string
  | bytes
  | fixedBytes
  | listOfGameServerRole
  | unspecified
  deriving DecidableEq, Repr

/-- One row of the wire catalogue of the specification. -/
structure CatalogueRow where
  id : Nat
  name : String
  fields : List (String × CatalogueType)
  deriving DecidableEq, Repr

/-- The wire catalogue as the specification states it (section 6), row by row. -/
def wireCatalogue : List CatalogueRow :=
  [ { id := 20000, name := "PingResponse"
      fields := [("id", CatalogueType.u32), ("playerCount", CatalogueType.u32)] },
    { id := 20001, name := "CryptoHandshakeResponse"
      fields := [("publicKey", CatalogueType.fixedBytes)] },
    { id := 20002, name := "KeepaliveResponse"
      fields := [("playerCount", CatalogueType.u32)] },
    { id := 20003, name := "ServerDisconnect"
      fields := [("message", CatalogueType.string)] },
    { id := 20004, name := "LoggedIn"
      fields := [("tps", CatalogueType.u32), ("specialUserData", CatalogueType.unspecified),
        ("allRoles", CatalogueType.listOfGameServerRole), ("secretKey", CatalogueType.u32)] },
    { id := 20005, name := "LoginFailed"
      fields := [("message", CatalogueType.string)] },
    { id := 20006, name := "ServerNotice"
      fields := [("message", CatalogueType.string)] },
    { id := 20007, name := "ProtocolMismatch"
      fields := [("serverProtocol", CatalogueType.u16)] },
    { id := 20008, name := "KeepaliveTCPResponse"
      fields := [] },
    { id := 20009, name := "ClaimThreadFailed"
      fields := [] },
    { id := 20010, name := "ConnectionTestResponse"
      fields := [("uid", CatalogueType.u32), ("data", CatalogueType.bytes)] },
    { id := 20011, name := "ServerBanned"
      fields := [("message", CatalogueType.string), ("timestamp", CatalogueType.i64)] },
    { id := 20012, name := "ServerMuted"
      fields := [("reason", CatalogueType.string), ("timestamp", CatalogueType.i64)] } ]

/-- The catalogue type under which a C++ member type goes on the wire. -/
def CppType.catalogueType : CppType → CatalogueType
  | CppType.uint16_t => CatalogueType.u16
  | CppType.uint32_t => CatalogueType.u32
  | CppType.int64_t => CatalogueType.i64
  | CppType.std_string => CatalogueType.string
  | CppType.bytevector => CatalogueType.bytes
  | CppType.CryptoPublicKey => CatalogueType.fixedBytes
  | CppType.SpecialUserData => CatalogueType.unspecified
  | CppType.vector_GameServerRole => CatalogueType.listOfGameServerRole

/-- The names of the serialized fields of the packet with the given id, in serialization
order (empty when no packet has the id). -/
def serializedFields (packetId : Nat) : List String :=
  match serverConnectionPackets.find? (fun decl => decl.id = packetId) with
  | some decl => decl.serialized
  | none => []

/-- The names of the catalogue's fields for the given id, in catalogue order (empty when the
catalogue has no such row). -/
def catalogueFields (packetId : Nat) : List String :=
  match wireCatalogue.find? (fun row => row.id = packetId) with
  | some row => row.fields.map Prod.fst
  | none => []

/-! ## Wire encoding of the server connection packets

The byte-level codec lives in `data/packets/packet.hpp` and the byte buffer it uses, which
are not part of the sources at hand.  It is modelled from the encoding rules of the
specification (section 6): network-order integers, length-prefixed strings and byte blobs,
length-prefixed lists of nested structures, and no schema on the wire, the id alone
selecting the schema. -/

namespace Wire

/-- A byte. -/
abbrev Byte := Fin 256

/-- The low byte of a natural number. -/
def byteOf (n : Nat) : Byte :=
  ⟨n % 256, Nat.mod_lt n (by decide)⟩

/-- The outcome of reading a value from the front of a byte sequence: the value and the
unread rest, or nothing when the input is truncated or ill-typed. -/
abbrev Reader (α : Type) := List Byte → Option (α × List Byte)

/-- Modelled from the spec: a 16-bit unsigned integer in network order (most significant
byte first). -/
def writeU16 (n : Nat) : List Byte :=
  [byteOf (n / 256), byteOf n]

/-- Modelled from the spec: reads a 16-bit unsigned integer in network order. -/
def readU16 : Reader Nat
  | b0 :: b1 :: rest => some (b0.val * 256 + b1.val, rest)
  | _ => none

/-- Modelled from the spec: a 32-bit unsigned integer in network order. -/
def writeU32 (n : Nat) : List Byte :=
  [byteOf (n / 16777216), byteOf (n / 65536), byteOf (n / 256), byteOf n]

/-- Modelled from the spec: reads a 32-bit unsigned integer in network order. -/
def readU32 : Reader Nat
  | b0 :: b1 :: b2 :: b3 :: rest =>
    some (b0.val * 16777216 + b1.val * 65536 + b2.val * 256 + b3.val, rest)
  | _ => none

/-- Modelled from the spec: a 64-bit signed integer in network order, as the two halves of
its two's complement representation. -/
def writeI64 (z : Int) : List Byte :=
  writeU32 ((z % 18446744073709551616).toNat / 4294967296) ++
    writeU32 ((z % 18446744073709551616).toNat % 4294967296)

/-- Modelled from the spec: reads a 64-bit signed integer in network order. -/
def readI64 : Reader Int := fun bytes =>
  match readU32 bytes with
  | none => none
  | some (high, rest) =>
    match readU32 rest with
    | none => none
    | some (low, rest) =>
      let raw := high * 4294967296 + low
      some (if raw < 9223372036854775808 then (raw : Int)
        else (raw : Int) - 18446744073709551616, rest)

/-- Modelled from the spec: a length-prefixed byte blob (32-bit length, then the bytes).  A
`std::string` is written the same way. -/
def writeBytes (data : List Byte) : List Byte :=
  writeU32 data.length ++ data

/-- Modelled from the spec: reads a length-prefixed byte blob; fails when fewer bytes than
announced are left. -/
def readBytes : Reader (List Byte) := fun bytes =>
  match readU32 bytes with
  | none => none
  | some (length, rest) =>
    if length ≤ rest.length then some (rest.take length, rest.drop length) else none

/-- Modelled from the spec: key material of a fixed size, written without a length
prefix. -/
def writeFixed (data : List Byte) : List Byte :=
  data

/-- Modelled from the spec: reads `size` bytes of key material. -/
def readFixed (size : Nat) : Reader (List Byte) := fun bytes =>
  if size ≤ bytes.length then some (bytes.take size, bytes.drop size) else none

/-- The codec of a nested structure whose layout is defined outside `connection.hpp`. -/
structure Codec (α : Type) where
  write : α → List Byte
  read : Reader α

/-- The law of a codec: a written value, followed by anything, is read back. -/
def Codec.RoundTrips {α : Type} (codec : Codec α) : Prop :=
  ∀ (value : α) (rest : List Byte), codec.read (codec.write value ++ rest) = some (value, rest)

/-- Reads `count` values one after the other. -/
def readMany {α : Type} (read : Reader α) : Nat → Reader (List α)
  | 0, bytes => some ([], bytes)
  | count + 1, bytes =>
    match read bytes with
    | none => none
    | some (value, rest) =>
      match readMany read count rest with
      | none => none
      | some (values, rest) => some (value :: values, rest)

/-- Writes the values one after the other. -/
def writeMany {α : Type} (write : α → List Byte) : List α → List Byte
  | [] => []
  | value :: values => write value ++ writeMany write values

/-- Modelled from the spec: a length-prefixed list of nested structures (32-bit count, then
the elements). -/
def writeList {α : Type} (codec : Codec α) (values : List α) : List Byte :=
  writeU32 values.length ++ writeMany codec.write values

/-- Modelled from the spec: reads a length-prefixed list of nested structures. -/
def readList {α : Type} (codec : Codec α) : Reader (List α) := fun bytes =>
  match readU32 bytes with
  | none => none
  | some (count, rest) => readMany codec.read count rest

/-- What the codec needs to know beyond `connection.hpp`: the size of the public key and the
codecs of the two nested structures (`data/types/crypto.hpp`, `data/types/user.hpp`). -/
structure Config (S R : Type) where
  keySize : Nat
  specialUserData : Codec S
  gameServerRole : Codec R

/-- The payloads of the thirteen packet classes of `connection.hpp`, with the data members
of each class in declaration order.  `S` and `R` are the types `SpecialUserData` and
`GameServerRole`. -/
inductive ServerPacket (S R : Type) where
  | PingResponse (id playerCount : Nat)
  | CryptoHandshakeResponse (data : List Byte)
  | KeepaliveResponse (playerCount : Nat)
  | ServerDisconnect (message : List Byte)
  | LoggedIn (tps : Nat) (specialUserData : S) (allRoles : List R) (secretKey : Nat)
  | LoginFailed (message : List Byte)
  | ServerNotice (message : List Byte)
  | ProtocolMismatch (serverProtocol : Nat)
  | KeepaliveTCPResponse
  | ClaimThreadFailed
  | ConnectionTestResponse (uid : Nat) (data : List Byte)
  | ServerBanned (message : List Byte) (timestamp : Int)
  | ServerMuted (reason : List Byte) (timestamp : Int)

/-- The id given to `GLOBED_PACKET` for each class. -/
def ServerPacket.packetId {S R : Type} : ServerPacket S R → Nat
  | PingResponse _ _ => 20000
  | CryptoHandshakeResponse _ => 20001
  | KeepaliveResponse _ => 20002
  | ServerDisconnect _ => 20003
  | LoggedIn _ _ _ _ => 20004
  | LoginFailed _ => 20005
  | ServerNotice _ => 20006
  | ProtocolMismatch _ => 20007
  | KeepaliveTCPResponse => 20008
  | ClaimThreadFailed => 20009
  | ConnectionTestResponse _ _ => 20010
  | ServerBanned _ _ => 20011
  | ServerMuted _ _ => 20012

/-- A validly constructed packet: every integer member is in the range of its C++ type,
every string, blob and list has a length that fits the 32-bit prefix, and the public key
has the fixed key size. -/
def ServerPacket.Valid {S R : Type} (config : Config S R) : ServerPacket S R → Prop
  | PingResponse id playerCount => id < 4294967296 ∧ playerCount < 4294967296
  | CryptoHandshakeResponse data => data.length = config.keySize
  | KeepaliveResponse playerCount => playerCount < 4294967296
  | ServerDisconnect message => message.length < 4294967296
  | LoggedIn tps _ allRoles secretKey =>
    tps < 4294967296 ∧ allRoles.length < 4294967296 ∧ secretKey < 4294967296
  | LoginFailed message => message.length < 4294967296
  | ServerNotice message => message.length < 4294967296
  | ProtocolMismatch serverProtocol => serverProtocol < 65536
  | KeepaliveTCPResponse => True
  | ClaimThreadFailed => True
  | ConnectionTestResponse uid data => uid < 4294967296 ∧ data.length < 4294967296
  | ServerBanned message timestamp =>
    message.length < 4294967296 ∧
      -9223372036854775808 ≤ timestamp ∧ timestamp < 9223372036854775808
  | ServerMuted reason timestamp =>
    reason.length < 4294967296 ∧
      -9223372036854775808 ≤ timestamp ∧ timestamp < 9223372036854775808

/-- Modelled from the spec: `encode(packet) -> bytes`, the fields of the packet one after the
other in the order of its `GLOBED_SERIALIZABLE_STRUCT` field list. -/
def encode {S R : Type} (config : Config S R) : ServerPacket S R → List Byte
  | ServerPacket.PingResponse id playerCount => writeU32 id ++ writeU32 playerCount
  | ServerPacket.CryptoHandshakeResponse data => writeFixed data
  | ServerPacket.KeepaliveResponse playerCount => writeU32 playerCount
  | ServerPacket.ServerDisconnect message => writeBytes message
  | ServerPacket.LoggedIn tps specialUserData allRoles secretKey =>
    writeU32 tps ++ (config.specialUserData.write specialUserData ++
      (writeList config.gameServerRole allRoles ++ writeU32 secretKey))
  | ServerPacket.LoginFailed message => writeBytes message
  | ServerPacket.ServerNotice message => writeBytes message
  | ServerPacket.ProtocolMismatch serverProtocol => writeU16 serverProtocol
  | ServerPacket.KeepaliveTCPResponse => []
  | ServerPacket.ClaimThreadFailed => []
  | ServerPacket.ConnectionTestResponse uid data => writeU32 uid ++ writeBytes data
  | ServerPacket.ServerBanned message timestamp => writeBytes message ++ writeI64 timestamp
  | ServerPacket.ServerMuted reason timestamp => writeBytes reason ++ writeI64 timestamp

/-- The two recoverable failures of `decode`. -/
inductive DecodeError where
  | UnknownId
  | MalformedPayload
  deriving DecidableEq, Repr

/-- Turns the outcome of reading the last field into the outcome of `decode`. -/
def finish {α β : Type} (build : α → β) : Option (α × List Byte) → Except DecodeError β
  | some (value, _) => Except.ok (build value)
  | none => Except.error DecodeError.MalformedPayload

/-- Modelled from the spec: `decode(id, bytes) -> Result<Packet, DecodeError>`; the id selects
the schema, the fields are read in the order of the schema, an id outside the registry is
`UnknownId` and a truncated payload is `MalformedPayload`. -/
def decode {S R : Type} (config : Config S R) (packetId : Nat) (bytes : List Byte) :
    Except DecodeError (ServerPacket S R) :=
  if packetId = 20000 then
    finish (fun packet => packet)
      (match readU32 bytes with
      | none => none
      | some (id, rest) =>
        match readU32 rest with
        | none => none
        | some (playerCount, rest) => some (ServerPacket.PingResponse id playerCount, rest))
  else if packetId = 20001 then
    finish ServerPacket.CryptoHandshakeResponse (readFixed config.keySize bytes)
  else if packetId = 20002 then
    finish ServerPacket.KeepaliveResponse (readU32 bytes)
  else if packetId = 20003 then
    finish ServerPacket.ServerDisconnect (readBytes bytes)
  else if packetId = 20004 then
    finish (fun packet => packet)
      (match readU32 bytes with
      | none => none
      | some (tps, rest) =>
        match config.specialUserData.read rest with
        | none => none
        | some (specialUserData, rest) =>
          match readList config.gameServerRole rest with
          | none => none
          | some (allRoles, rest) =>
            match readU32 rest with
            | none => none
            | some (secretKey, rest) =>
              some (ServerPacket.LoggedIn tps specialUserData allRoles secretKey, rest))
  else if packetId = 20005 then
    finish ServerPacket.LoginFailed (readBytes bytes)
  else if packetId = 20006 then
    finish ServerPacket.ServerNotice (readBytes bytes)
  else if packetId = 20007 then
    finish ServerPacket.ProtocolMismatch (readU16 bytes)
  else if packetId = 20008 then
    Except.ok ServerPacket.KeepaliveTCPResponse
  else if packetId = 20009 then
    Except.ok ServerPacket.ClaimThreadFailed
  else if packetId = 20010 then
    finish (fun packet => packet)
      (match readU32 bytes with
      | none => none
      | some (uid, rest) =>
        match readBytes rest with
        | none => none
        | some (data, rest) => some (ServerPacket.ConnectionTestResponse uid data, rest))
  else if packetId = 20011 then
    finish (fun packet => packet)
      (match readBytes bytes with
      | none => none
      | some (message, rest) =>
        match readI64 rest with
        | none => none
        | some (timestamp, rest) => some (ServerPacket.ServerBanned message timestamp, rest))
  else if packetId = 20012 then
    finish (fun packet => packet)
      (match readBytes bytes with
      | none => none
      | some (reason, rest) =>
        match readI64 rest with
        | none => none
        | some (timestamp, rest) => some (ServerPacket.ServerMuted reason timestamp, rest))
  else Except.error DecodeError.UnknownId

/-- A nested structure without content. -/
def emptyCodec : Codec Unit :=
  { write := fun _ => [], read := fun bytes => some ((), bytes) }

/-- A nested structure that is a single byte. -/
def byteCodec : Codec Byte :=
  { write := fun value => [value]
    read := fun bytes =>
      match bytes with
      | value :: rest => some (value, rest)
      | [] => none }

/-- A configuration with a four-byte key and the two small nested codecs. -/
def sampleConfig : Config Unit Byte :=
  { keySize := 4, specialUserData := emptyCodec, gameServerRole := byteCodec }

end Wire

/-! ## Settings

The reflection loop of `src/managers/settings.cpp`.  The settings tree itself (the categories
and the settings of `settings.hpp`) is not part of the sources at hand; the loop only uses
the name of every category, and the name, the compile-time `Default` and the current value
of every setting, so the tree is a list of categories, each a list of such settings, over
an arbitrary type `V` of setting values.  The save container of the mod is a partial map
from keys to values. -/

/-- The task of one run of `GlobedSettings::reflect`. -/
inductive TaskType where
  | SaveSettings
  | LoadSettings
  | ResetSettings
  | HardResetSettings
  deriving DecidableEq, Repr

/-- One setting: its member name, its compile-time `Default` and its value in memory. -/
structure Setting (V : Type) where
  name : String
  Default : V
  value : V

/-- One category of settings: its member name and its settings in declaration order. -/
structure Category (V : Type) where
  name : String
  settings : List (Setting V)

/-- The save container of the mod (`Mod::get()->getSaveContainer()`). -/
abbrev SaveContainer (V : Type) := String → Option V

/-- The settings manager together with the save container it works on. -/
structure GlobedSettings (V : Type) where
  categories : List (Category V)
  saveContainer : SaveContainer V

namespace GlobedSettings

variable {V : Type}

/-- The method `GlobedSettings::has`: whether the container holds a value under the key. -/
def has (container : SaveContainer V) (key : String) : Bool :=
  (container key).isSome

/-- The method `GlobedSettings::clear`: erases the key when the container holds it. -/
def clear (container : SaveContainer V) (key : String) : SaveContainer V :=
  if (container key).isSome then Function.update container key none else container

/-- Modelled from the spec: `GlobedSettings::store` is a template of `settings.hpp`, which is
not part of the sources at hand; it writes the value under the key ("serialization of a
settings tree to a key-value store"). -/
def store (container : SaveContainer V) (key : String) (value : V) : SaveContainer V :=
  Function.update container key (some value)

/-- Modelled from the spec: `GlobedSettings::loadOptionalInto` is a template of
`settings.hpp`, which is not part of the sources at hand; it overwrites the setting's value
with the stored one when the container holds the key. -/
def loadOptionalInto (container : SaveContainer V) (key : String) (setting : Setting V) :
    Setting V :=
  match container key with
  | some value => { setting with value := value }
  | none => setting

/-- The key of a setting in the save container. -/
def settingKey (isFlag : Bool) (catName setName : String) : String :=
  if isFlag then "_gflag-" ++ setName else "_gsetting-" ++ catName ++ setName

/-- The body of the inner loop of `reflect` for one setting: the `switch` on the task. -/
def reflectSetting [DecidableEq V] (taskType : TaskType) (catName : String) (isFlag : Bool)
    (setting : Setting V) (container : SaveContainer V) : Setting V × SaveContainer V :=
  let key := settingKey isFlag catName setting.name
  match taskType with
  | TaskType.SaveSettings =>
    if has container key || decide (setting.value ≠ setting.Default) || isFlag then
      (setting, store container key setting.value)
    else (setting, container)
  | TaskType.LoadSettings => (loadOptionalInto container key setting, container)
  | TaskType.ResetSettings =>
    if isFlag then (setting, container)
    else ({ setting with value := setting.Default }, clear container key)
  | TaskType.HardResetSettings =>
    ({ setting with value := setting.Default }, clear container key)

/-- The inner loop of `reflect`: all settings of one category, in order. -/
def reflectSettings [DecidableEq V] (taskType : TaskType) (catName : String) (isFlag : Bool) :
    List (Setting V) → SaveContainer V → List (Setting V) × SaveContainer V
  | [], container => ([], container)
  | setting :: rest, container =>
    let step := reflectSetting taskType catName isFlag setting container
    let tail := reflectSettings taskType catName isFlag rest step.2
    (step.1 :: tail.1, tail.2)

/-- The body of the outer loop of `reflect` for one category. -/
def reflectCategory [DecidableEq V] (taskType : TaskType) (category : Category V)
    (container : SaveContainer V) : Category V × SaveContainer V :=
  let isFlag := decide (category.name = "flags")
  let result := reflectSettings taskType category.name isFlag category.settings container
  ({ category with settings := result.1 }, result.2)

/-- The outer loop of `reflect`: all categories, in order. -/
def reflectCategories [DecidableEq V] (taskType : TaskType) :
    List (Category V) → SaveContainer V → List (Category V) × SaveContainer V
  | [], container => ([], container)
  | category :: rest, container =>
    let step := reflectCategory taskType category container
    let tail := reflectCategories taskType rest step.2
    (step.1 :: tail.1, tail.2)

/-- The method `GlobedSettings::reflect`. -/
def reflect [DecidableEq V] (self : GlobedSettings V) (taskType : TaskType) : GlobedSettings V :=
  let result := reflectCategories taskType self.categories self.saveContainer
  { categories := result.1, saveContainer := result.2 }

/-- The method `GlobedSettings::hardReset`. -/
def hardReset [DecidableEq V] (self : GlobedSettings V) : GlobedSettings V :=
  reflect self TaskType.HardResetSettings

/-- The method `GlobedSettings::reset`. -/
def reset [DecidableEq V] (self : GlobedSettings V) : GlobedSettings V :=
  reflect self TaskType.ResetSettings

/-- The method `GlobedSettings::reload`. -/
def reload [DecidableEq V] (self : GlobedSettings V) : GlobedSettings V :=
  reflect self TaskType.LoadSettings

/-- The method `GlobedSettings::save`. -/
def save [DecidableEq V] (self : GlobedSettings V) : GlobedSettings V :=
  reflect self TaskType.SaveSettings

/-- A setting with its value put back to `Default`. -/
def Setting.toDefault (setting : Setting V) : Setting V :=
  { setting with value := setting.Default }

/-- The keys of the settings of one category. -/
def categoryKeys (category : Category V) : List String :=
  category.settings.map
    (fun setting => settingKey (decide (category.name = "flags")) category.name setting.name)

/-- A tree with a flag and two ordinary settings, and a container that stores all three and
one key that belongs to no setting. -/
def sampleSettings : GlobedSettings Nat :=
  { categories :=
      [ { name := "globed"
          settings := [{ name := "tpsCap", Default := 0, value := 30 },
            { name := "autoconnect", Default := 0, value := 1 }] },
        { name := "flags"
          settings := [{ name := "seenSignupNotice", Default := 0, value := 1 }] } ]
    saveContainer := fun key =>
      if key = "_gsetting-globedtpsCap" then some 30
      else if key = "_gsetting-globedautoconnect" then some 1
      else if key = "_gflag-seenSignupNotice" then some 1
      else if key = "other" then some 5
      else none }

end GlobedSettings

/-! ## Packet logger

The summary of the packet log of `src/util/debugging.cpp`.  The structures `PacketLog` and
`PacketLogSummary` are declared in `debugging.hpp`, which is not part of the sources at hand;
they carry the members that `getSummary` and `print` use.  The `size_t` counters are natural
numbers.  `packetCounts` is a map from packet ids to counts, kept as a list of entries with
the operations that `getSummary` uses on it. -/

namespace util.debugging

/-- One logged packet. -/
structure PacketLog where
  id : Nat
  encrypted : Bool
  outgoing : Bool
  bytes : Nat
  deriving DecidableEq, Repr

/-- The method `contains` of the map `packetCounts`. -/
def PacketCounts.contains : List (Nat × Nat) → Nat → Bool
  | [], _ => false
  | (key, _) :: rest, id => if key = id then true else PacketCounts.contains rest id

/-- The value that `packetCounts[id]` refers to: the stored count, or the value-initialised
count 0 of an entry that the subscript creates. -/
def PacketCounts.get : List (Nat × Nat) → Nat → Nat
  | [], _ => 0
  | (key, count) :: rest, id => if key = id then count else PacketCounts.get rest id

/-- The assignment `packetCounts[id] = value`: overwrites the entry or creates it. -/
def PacketCounts.assign : List (Nat × Nat) → Nat → Nat → List (Nat × Nat)
  | [], id, value => [(id, value)]
  | (key, count) :: rest, id, value =>
    if key = id then (key, value) :: rest else (key, count) :: PacketCounts.assign rest id value

/-- The summary of a packet log. -/
structure PacketLogSummary where
  total : Nat
  totalIn : Nat
  totalOut : Nat
  totalEncrypted : Nat
  totalCleartext : Nat
  totalBytes : Nat
  totalBytesIn : Nat
  totalBytesOut : Nat
  packetCounts : List (Nat × Nat)
  bytesPerPacket : ℚ
  encryptedRatio : ℚ
  deriving DecidableEq, Repr

/-- The value-initialised summary `PacketLogSummary summary = {}`. -/
def PacketLogSummary.zero : PacketLogSummary :=
  { total := 0, totalIn := 0, totalOut := 0, totalEncrypted := 0, totalCleartext := 0
    totalBytes := 0, totalBytesIn := 0, totalBytesOut := 0
    packetCounts := [], bytesPerPacket := 0, encryptedRatio := 0 }

/-- The body of the loop of `getSummary` for one logged packet. -/
def PacketLogger.logStep (summary : PacketLogSummary) (log : PacketLog) : PacketLogSummary :=
  let summary := { summary with total := summary.total + 1 }
  let summary := { summary with totalBytes := summary.totalBytes + log.bytes }
  let summary :=
    if log.outgoing then
      let summary := { summary with totalOut := summary.totalOut + 1 }
      { summary with totalBytesOut := summary.totalBytesOut + log.bytes }
    else
      let summary := { summary with totalIn := summary.totalIn + 1 }
      { summary with totalBytesIn := summary.totalBytesIn + log.bytes }
  let summary :=
    if log.encrypted then { summary with totalEncrypted := summary.totalEncrypted + 1 }
    else { summary with totalCleartext := summary.totalCleartext + 1 }
  let summary :=
    if !(PacketCounts.contains summary.packetCounts log.id) then
      { summary with packetCounts := PacketCounts.assign summary.packetCounts log.id 0 }
    else summary
  { summary with
    packetCounts :=
      PacketCounts.assign summary.packetCounts log.id
        (PacketCounts.get summary.packetCounts log.id + 1) }

/-- The outcome of `getSummary`: the summary, and the float divisions that the call
evaluated, as (numerator, denominator) pairs. -/
structure SummaryResult where
  summary : PacketLogSummary
  divisions : List (ℚ × ℚ)
  deriving DecidableEq, Repr

/-- The method `PacketLogger::getSummary`, on the entries that `queue.extract()` returns. -/
def PacketLogger.getSummary (queue : List PacketLog) : SummaryResult :=
  let summary := queue.foldl PacketLogger.logStep PacketLogSummary.zero
  let summary := { summary with
    bytesPerPacket := (summary.totalBytes : ℚ) / (summary.total : ℚ) }
  let summary := { summary with
    encryptedRatio := (summary.totalEncrypted : ℚ) / (summary.total : ℚ) }
  { summary := summary
    divisions :=
      [((summary.totalBytes : ℚ), (summary.total : ℚ)),
        ((summary.totalEncrypted : ℚ), (summary.total : ℚ))] }

/-- Whether `PacketLogSummary::print` reads the two ratios: it does not when `total == 0`. -/
def PacketLogSummary.printUsesRatios (summary : PacketLogSummary) : Bool :=
  if summary.total = 0 then false else true

/-- A log of three packets: two of id 20000 and one of id 20004. -/
def sampleLog : List PacketLog :=
  [ { id := 20000, encrypted := false, outgoing := false, bytes := 8 },
    { id := 20004, encrypted := true, outgoing := false, bytes := 40 },
    { id := 20000, encrypted := false, outgoing := true, bytes := 8 } ]

end util.debugging

/-! ## Concrete data used to exercise the theorems -/

/-- A cube icon at the given position and rotation. -/
def iconAt (x y rotation : ℚ) (iconType : PlayerIconType) : SpecificIconData :=
  { position := { x := x, y := y }
    rotation := rotation
    iconType := iconType
    isVisible := true
    isLookingLeft := false
    isUpsideDown := false
    isDashing := false
    isMini := false }

/-- A sample taken at `timestamp`, with both icons at `(x, y)`. -/
def sampleAt (timestamp x y lastDeathTimestamp : ℚ) : PlayerData :=
  { timestamp := timestamp
    player1 := iconAt x y 0 PlayerIconType.Cube
    player2 := iconAt x y 90 PlayerIconType.Cube
    lastDeathTimestamp := lastDeathTimestamp }

/-- The constructor `PlayerInterpolator(settings)`: an interpolator that tracks nobody. -/
def emptyInterpolator (settings : InterpolatorSettings) : PlayerInterpolator :=
  { settings := settings, players := fun _ => none }

/-- An interpolator that tracks exactly the player `playerId`, in the state `player`. -/
def singleInterpolator (settings : InterpolatorSettings) (playerId : Nat)
    (player : PlayerState) : PlayerInterpolator :=
  { settings := settings, players := Function.update (fun _ => none) playerId (some player) }

/-- Buffered (non-realtime) settings with a nominal delta of 1/30 s. -/
def bufferedSettings : InterpolatorSettings :=
  { realtime := false, expectedDelta := 1 / 30 }

/-- A player with two buffered samples one tick apart, the second one rotated and moved. -/
def movingPlayer : PlayerState :=
  { PlayerState.new with
    olderFrame := LerpFrame.ofPlayerData (sampleAt 1 0 0 0)
    newerFrame :=
      { timestamp := 31 / 30
        visual :=
          { player1 := iconAt 10 0 45 PlayerIconType.Cube
            player2 := iconAt 10 0 180 PlayerIconType.Cube } }
    timeCounter := 61 / 60
    totalFrames := 2 }

/-- A player whose two buffered samples carry the same timestamp. -/
def stalledPlayer : PlayerState :=
  { PlayerState.new with
    olderFrame := LerpFrame.ofPlayerData (sampleAt 1 0 0 0)
    newerFrame := LerpFrame.ofPlayerData (sampleAt 1 10 0 0)
    timeCounter := 1
    totalFrames := 2 }

/-- Realtime settings: samples are applied directly. -/
def realtimeSettings : InterpolatorSettings :=
  { realtime := true, expectedDelta := 1 / 30 }

/-- Two players: player 7 moves, player 8 holds two samples of equal timestamp. -/
def twoPlayers : PlayerInterpolator :=
  { settings := bufferedSettings
    players := Function.update (Function.update (fun _ => none) 7 (some movingPlayer)) 8
      (some stalledPlayer) }

/-! ## Basic facts about the operations -/

namespace PlayerInterpolator

theorem ext_of_fields {a b : PlayerInterpolator} (hs : a.settings = b.settings)
    (hp : a.players = b.players) : a = b := by
  cases a
  cases b
  simp_all

theorem updatePlayer_tracked (errorMargin : ℚ) (self : PlayerInterpolator) (playerId : Nat)
    (player : PlayerState) (data : PlayerData) (updateCounter : ℚ)
    (htracked : self.players playerId = some player) :
    updatePlayer errorMargin self playerId data updateCounter =
      Except.ok { self with
        players := Function.update self.players playerId
          (some (updatePlayerState errorMargin self.settings data updateCounter player)) } := by
  simp [updatePlayer, htracked]

theorem addPlayer_fresh (self : PlayerInterpolator) (playerId : Nat)
    (hfresh : self.players playerId = none) :
    (addPlayer self playerId).players playerId = some PlayerState.new ∧
      (addPlayer self playerId).settings = self.settings := by
  simp [addPlayer, hfresh]

theorem updatePlayerState_pendingDeath (errorMargin : ℚ) (settings : InterpolatorSettings)
    (data : PlayerData) (updateCounter : ℚ) (player : PlayerState) :
    (updatePlayerState errorMargin settings data updateCounter player).pendingDeath =
      (player.pendingDeath ||
        (!(util.math.equal errorMargin player.lastDeathTimestamp data.lastDeathTimestamp) &&
          decide (1 ≤ player.totalFrames))) := by
  unfold updatePlayerState
  by_cases heq : util.math.equal errorMargin player.lastDeathTimestamp data.lastDeathTimestamp = true
  · cases hrt : settings.realtime <;> simp [heq]
  · by_cases hfr : 0 < player.totalFrames
    · have hfr1 : 1 ≤ player.totalFrames := hfr
      cases hrt : settings.realtime <;> simp [heq, hfr, hfr1]
    · have hfr1 : ¬ 1 ≤ player.totalFrames := hfr
      have hfr0 : player.totalFrames = 0 := by omega
      cases hrt : settings.realtime <;> simp [heq, hfr0]

theorem updatePlayerState_lastDeathTimestamp (errorMargin : ℚ) (settings : InterpolatorSettings)
    (data : PlayerData) (updateCounter : ℚ) (player : PlayerState) :
    (updatePlayerState errorMargin settings data updateCounter player).lastDeathTimestamp =
      if util.math.equal errorMargin player.lastDeathTimestamp data.lastDeathTimestamp
      then player.lastDeathTimestamp else data.lastDeathTimestamp := by
  unfold updatePlayerState
  by_cases heq : util.math.equal errorMargin player.lastDeathTimestamp data.lastDeathTimestamp = true
  · cases hrt : settings.realtime <;> simp [heq]
  · by_cases hfr : 0 < player.totalFrames
    · cases hrt : settings.realtime <;> simp [heq, hfr]
    · cases hrt : settings.realtime <;> simp [heq, hfr]

theorem updatePlayerState_totalFrames (errorMargin : ℚ) (settings : InterpolatorSettings)
    (data : PlayerData) (updateCounter : ℚ) (player : PlayerState) :
    (updatePlayerState errorMargin settings data updateCounter player).totalFrames =
      player.totalFrames + 1 := by
  unfold updatePlayerState
  by_cases heq : util.math.equal errorMargin player.lastDeathTimestamp data.lastDeathTimestamp = true
  · cases hrt : settings.realtime <;> simp [heq]
  · by_cases hfr : 0 < player.totalFrames
    · cases hrt : settings.realtime <;> simp [heq, hfr]
    · cases hrt : settings.realtime <;> simp [heq, hfr]

theorem updatePlayerState_updateCounter (errorMargin : ℚ) (settings : InterpolatorSettings)
    (data : PlayerData) (updateCounter : ℚ) (player : PlayerState) :
    (updatePlayerState errorMargin settings data updateCounter player).updateCounter =
      updateCounter := by
  unfold updatePlayerState
  by_cases heq : util.math.equal errorMargin player.lastDeathTimestamp data.lastDeathTimestamp = true
  · cases hrt : settings.realtime <;> simp [heq]
  · by_cases hfr : 0 < player.totalFrames
    · cases hrt : settings.realtime <;> simp [heq, hfr]
    · cases hrt : settings.realtime <;> simp [heq, hfr]

theorem updatePlayerState_buffered (errorMargin : ℚ) (settings : InterpolatorSettings)
    (data : PlayerData) (updateCounter : ℚ) (player : PlayerState)
    (hmode : settings.realtime = false) :
    (updatePlayerState errorMargin settings data updateCounter player).newerFrame =
        LerpFrame.ofPlayerData data ∧
      (updatePlayerState errorMargin settings data updateCounter player).olderFrame =
        player.newerFrame ∧
      (updatePlayerState errorMargin settings data updateCounter player).timeCounter =
        player.newerFrame.timestamp ∧
      (updatePlayerState errorMargin settings data updateCounter player).interpolatedState =
        player.interpolatedState := by
  unfold updatePlayerState
  by_cases heq : util.math.equal errorMargin player.lastDeathTimestamp data.lastDeathTimestamp = true
  · simp [heq, hmode]
  · by_cases hfr : 0 < player.totalFrames
    · simp [heq, hfr, hmode]
    · simp [heq, hfr, hmode]

end PlayerInterpolator

/-! ## Basic facts about interpolation -/

theorem lerpSpecific_rotation (older newer out : SpecificIconData) (lerpRatio : ℚ) :
    (lerpSpecific older newer out lerpRatio).rotation =
      stdLerp older.rotation newer.rotation lerpRatio := by
  rfl

theorem lerpSpecific_position_snap (older newer out : SpecificIconData) (lerpRatio : ℚ)
    (hsnap : older.iconType = PlayerIconType.Spider ∧ |older.position.y - newer.position.y| ≥ 33) :
    (lerpSpecific older newer out lerpRatio).position =
      { x := stdLerp older.position.x newer.position.x lerpRatio, y := older.position.y } := by
  unfold lerpSpecific
  simp only []
  rw [if_pos hsnap]

theorem lerpSpecific_position_blend (older newer out : SpecificIconData) (lerpRatio : ℚ)
    (hblend : ¬ (older.iconType = PlayerIconType.Spider ∧
      |older.position.y - newer.position.y| ≥ 33)) :
    (lerpSpecific older newer out lerpRatio).position =
      older.position.lerp newer.position lerpRatio := by
  unfold lerpSpecific
  simp only []
  rw [if_neg hblend]

namespace PlayerInterpolator

theorem tick_buffered (self : PlayerInterpolator) (dt : ℚ) (playerId : Nat)
    (hmode : self.settings.realtime = false) :
    (tick self dt).players playerId =
      (self.players playerId).map (fun player => (tickPlayer self.settings dt player).player) := by
  simp [tick, hmode]

theorem tickDivisions_buffered (self : PlayerInterpolator) (dt : ℚ) (playerId : Nat)
    (player : PlayerState) (hmode : self.settings.realtime = false)
    (htracked : self.players playerId = some player) :
    tickDivisions self dt playerId = (tickPlayer self.settings dt player).divisions := by
  simp [tickDivisions, hmode, htracked]

theorem tickPlayer_interpolates (settings : InterpolatorSettings) (dt : ℚ) (player : PlayerState)
    (hframes : 2 ≤ player.totalFrames)
    (hdelta : player.newerFrame.timestamp ≠ player.olderFrame.timestamp) :
    tickPlayer settings dt player =
      { player := { player with
          interpolatedState :=
            lerpPlayer player.olderFrame.visual player.newerFrame.visual player.interpolatedState
              ((player.timeCounter - player.olderFrame.timestamp) / settings.expectedDelta)
          timeCounter := player.timeCounter + dt }
        divisions := [(player.timeCounter - player.olderFrame.timestamp, settings.expectedDelta)] } := by
  have hlt : ¬ player.totalFrames < 2 := by omega
  have hsub : ¬ player.newerFrame.timestamp - player.olderFrame.timestamp = 0 := by
    intro h
    exact hdelta (sub_eq_zero.mp h)
  unfold tickPlayer
  simp only []
  rw [if_neg hlt, if_neg hsub]

theorem tickPlayer_zero_delta (settings : InterpolatorSettings) (dt : ℚ) (player : PlayerState)
    (hdelta : player.olderFrame.timestamp = player.newerFrame.timestamp) :
    tickPlayer settings dt player = { player := player, divisions := [] } := by
  have hsub : player.newerFrame.timestamp - player.olderFrame.timestamp = 0 := by
    rw [hdelta]
    exact sub_self _
  unfold tickPlayer
  simp only []
  rw [if_pos hsub]
  split_ifs <;> rfl

end PlayerInterpolator

/-! ## Sample buffering and death events -/

open PlayerInterpolator

/-- C1: in non-realtime mode, `updatePlayer(id, sample, c)` on a tracked player succeeds and
leaves the player with `newerFrame` built from the sample (its timestamp and both icons),
`olderFrame` equal to the previous `newerFrame`, `timeCounter` equal to the previous
`newerFrame`'s timestamp, `totalFrames` one higher, and `updateCounter` equal to `c`. -/
theorem C1_updatePlayer_buffers_sample (errorMargin : ℚ) (self : PlayerInterpolator)
    (playerId : Nat) (player : PlayerState) (data : PlayerData) (updateCounter : ℚ)
    (hmode : self.settings.realtime = false)
    (htracked : self.players playerId = some player) :
    ∃ self' player',
      updatePlayer errorMargin self playerId data updateCounter = Except.ok self' ∧
      self'.players playerId = some player' ∧
      player'.newerFrame =
        { timestamp := data.timestamp
          visual := { player1 := data.player1, player2 := data.player2 } } ∧
      player'.olderFrame = player.newerFrame ∧
      player'.timeCounter = player.newerFrame.timestamp ∧
      player'.totalFrames = player.totalFrames + 1 ∧
      player'.updateCounter = updateCounter := by
  obtain ⟨hnew, hold, htime, _⟩ :=
    updatePlayerState_buffered errorMargin self.settings data updateCounter player hmode
  refine ⟨_, updatePlayerState errorMargin self.settings data updateCounter player,
    updatePlayer_tracked errorMargin self playerId player data updateCounter htracked,
    ?_, ?_, hold, htime,
    updatePlayerState_totalFrames errorMargin self.settings data updateCounter player,
    updatePlayerState_updateCounter errorMargin self.settings data updateCounter player⟩
  · simp
  · rw [hnew]
    rfl

/-- C1 applied to a freshly added player that receives the sample taken at time 1. -/
theorem C1_updatePlayer_buffers_sample_witness :
    (singleInterpolator bufferedSettings 7 PlayerState.new).settings.realtime = false ∧
    (singleInterpolator bufferedSettings 7 PlayerState.new).players 7 = some PlayerState.new ∧
    ∃ self' player',
      updatePlayer (1 / 500) (singleInterpolator bufferedSettings 7 PlayerState.new) 7
        (sampleAt 1 10 0 0) 42 = Except.ok self' ∧
      self'.players 7 = some player' ∧
      player'.newerFrame =
        { timestamp := (sampleAt 1 10 0 0).timestamp
          visual :=
            { player1 := (sampleAt 1 10 0 0).player1, player2 := (sampleAt 1 10 0 0).player2 } } ∧
      player'.olderFrame = PlayerState.new.newerFrame ∧
      player'.timeCounter = PlayerState.new.newerFrame.timestamp ∧
      player'.totalFrames = PlayerState.new.totalFrames + 1 ∧
      player'.updateCounter = 42 :=
  ⟨rfl, by simp [singleInterpolator],
    C1_updatePlayer_buffers_sample (1 / 500) (singleInterpolator bufferedSettings 7 PlayerState.new)
      7 PlayerState.new (sampleAt 1 10 0 0) 42 rfl (by simp [singleInterpolator])⟩

/-- C2: in either mode, `updatePlayer` on a tracked player leaves `pendingDeath` equal to its
previous value OR (the sample's `lastDeathTimestamp` is not `util::math::equal` to the stored
one AND the player had received at least one sample before).  In particular the first sample
of a freshly added player leaves `pendingDeath` false whatever its death marker is, and a
marker change on the second sample sets it. -/
theorem C2_pendingDeath_edge_trigger (errorMargin : ℚ) :
    (∀ (self : PlayerInterpolator) (playerId : Nat) (player : PlayerState) (data : PlayerData)
        (updateCounter : ℚ),
      self.players playerId = some player →
      ∃ self' player',
        updatePlayer errorMargin self playerId data updateCounter = Except.ok self' ∧
        self'.players playerId = some player' ∧
        player'.pendingDeath =
          (player.pendingDeath ||
            (!(util.math.equal errorMargin player.lastDeathTimestamp data.lastDeathTimestamp) &&
              decide (1 ≤ player.totalFrames)))) ∧
    (∀ (self : PlayerInterpolator) (playerId : Nat) (first : PlayerData) (c1 : ℚ),
      self.players playerId = none →
      ∃ self1 player1,
        updatePlayer errorMargin (addPlayer self playerId) playerId first c1 = Except.ok self1 ∧
        self1.players playerId = some player1 ∧
        player1.pendingDeath = false ∧
        player1.lastDeathTimestamp =
          (if util.math.equal errorMargin 0 first.lastDeathTimestamp then 0
            else first.lastDeathTimestamp) ∧
        ∀ (second : PlayerData) (c2 : ℚ),
          util.math.equal errorMargin player1.lastDeathTimestamp second.lastDeathTimestamp = false →
          ∃ self2 player2,
            updatePlayer errorMargin self1 playerId second c2 = Except.ok self2 ∧
            self2.players playerId = some player2 ∧
            player2.pendingDeath = true) := by
  constructor
  · intro self playerId player data updateCounter htracked
    refine ⟨_, updatePlayerState errorMargin self.settings data updateCounter player,
      updatePlayer_tracked errorMargin self playerId player data updateCounter htracked,
      ?_, updatePlayerState_pendingDeath errorMargin self.settings data updateCounter player⟩
    simp
  · intro self playerId first c1 hfresh
    obtain ⟨hadd, _⟩ := addPlayer_fresh self playerId hfresh
    refine ⟨_, updatePlayerState errorMargin (addPlayer self playerId).settings first c1
      PlayerState.new, updatePlayer_tracked errorMargin _ playerId _ first c1 hadd, ?_, ?_, ?_, ?_⟩
    · simp
    · rw [updatePlayerState_pendingDeath]
      simp [PlayerState.new]
    · rw [updatePlayerState_lastDeathTimestamp]
      simp [PlayerState.new]
    · intro second c2 hchange
      refine ⟨_, updatePlayerState errorMargin (addPlayer self playerId).settings second c2
        (updatePlayerState errorMargin (addPlayer self playerId).settings first c1
          PlayerState.new),
        updatePlayer_tracked errorMargin _ playerId
          (updatePlayerState errorMargin (addPlayer self playerId).settings first c1
            PlayerState.new) second c2 (by simp), ?_, ?_⟩
      · simp
      · rw [updatePlayerState_pendingDeath, hchange, updatePlayerState_totalFrames]
        simp

/-- C2 applied to a player that already received two samples (marker 0, then a sample with
marker 5), and to the fresh id 8 (first sample with marker 5, second with marker 9). -/
theorem C2_pendingDeath_edge_trigger_witness :
    ((singleInterpolator bufferedSettings 7 { PlayerState.new with totalFrames := 2 }).players 7 =
        some { PlayerState.new with totalFrames := 2 } ∧
      ∃ self' player',
        updatePlayer (1 / 500)
          (singleInterpolator bufferedSettings 7 { PlayerState.new with totalFrames := 2 }) 7
          (sampleAt 1 10 0 5) 42 = Except.ok self' ∧
        self'.players 7 = some player' ∧
        player'.pendingDeath = true) ∧
    ((emptyInterpolator bufferedSettings).players 8 = none ∧
      ∃ self1 player1,
        updatePlayer (1 / 500) (addPlayer (emptyInterpolator bufferedSettings) 8) 8
          (sampleAt 1 10 0 5) 42 = Except.ok self1 ∧
        self1.players 8 = some player1 ∧
        player1.pendingDeath = false ∧
        ∃ self2 player2,
          updatePlayer (1 / 500) self1 8 (sampleAt 2 20 0 9) 43 = Except.ok self2 ∧
          self2.players 8 = some player2 ∧
          player2.pendingDeath = true) :=
  ⟨⟨by simp [singleInterpolator], by
    obtain ⟨self', player', hok, hget, hdeath⟩ :=
      (C2_pendingDeath_edge_trigger (1 / 500)).1
        (singleInterpolator bufferedSettings 7 { PlayerState.new with totalFrames := 2 }) 7
        { PlayerState.new with totalFrames := 2 } (sampleAt 1 10 0 5) 42
        (by simp [singleInterpolator])
    refine ⟨self', player', hok, hget, ?_⟩
    rw [hdeath]
    simp [util.math.equal, PlayerState.new, sampleAt]
    norm_num [abs_of_nonneg]⟩,
  ⟨rfl, by
    obtain ⟨self1, player1, hok1, hget1, hdeath1, hmarker1, hsecond⟩ :=
      (C2_pendingDeath_edge_trigger (1 / 500)).2 (emptyInterpolator bufferedSettings) 8
        (sampleAt 1 10 0 5) 42 rfl
    have hstored : player1.lastDeathTimestamp = 5 := by
      rw [hmarker1]
      simp [util.math.equal, sampleAt]
      norm_num [abs_of_nonneg]
    refine ⟨self1, player1, hok1, hget1, hdeath1, hsecond (sampleAt 2 20 0 9) 43 ?_⟩
    rw [hstored]
    simp [util.math.equal, sampleAt]
    norm_num [abs_of_nonneg]⟩⟩

/-- C3: `swapDeathStatus(id)` on a tracked player returns the previous `pendingDeath`, leaves
`pendingDeath` false and every other field of the player, every other player and the
settings unchanged; a second call right after it returns false. -/
theorem C3_swapDeathStatus_consumes_once (self : PlayerInterpolator) (playerId : Nat)
    (player : PlayerState) (htracked : self.players playerId = some player) :
    ∃ self',
      swapDeathStatus self playerId = Except.ok (player.pendingDeath, self') ∧
      self'.players playerId = some { player with pendingDeath := false } ∧
      (∀ other, other ≠ playerId → self'.players other = self.players other) ∧
      self'.settings = self.settings ∧
      ∃ self2,
        swapDeathStatus self' playerId = Except.ok (false, self2) ∧
        self2.players = self'.players ∧ self2.settings = self'.settings := by
  refine ⟨{ self with
      players := Function.update self.players playerId (some { player with pendingDeath := false }) },
    ?_, ?_, ?_, rfl, ?_⟩
  · simp [swapDeathStatus, htracked]
  · simp
  · intro other hother
    simp [Function.update, hother]
  · refine ⟨{ self with
      players := Function.update self.players playerId (some { player with pendingDeath := false }) },
      ?_, rfl, rfl⟩
    simp [swapDeathStatus]

/-- C3 applied to a player with a pending death. -/
theorem C3_swapDeathStatus_consumes_once_witness :
    (singleInterpolator bufferedSettings 7 { PlayerState.new with pendingDeath := true }).players 7 =
      some { PlayerState.new with pendingDeath := true } ∧
    ∃ self',
      swapDeathStatus
        (singleInterpolator bufferedSettings 7 { PlayerState.new with pendingDeath := true }) 7 =
        Except.ok (true, self') ∧
      ∃ self2, swapDeathStatus self' 7 = Except.ok (false, self2) :=
  ⟨by simp [singleInterpolator], by
    obtain ⟨self', hfirst, _, _, _, self2, hsecond, _⟩ :=
      C3_swapDeathStatus_consumes_once
        (singleInterpolator bufferedSettings 7 { PlayerState.new with pendingDeath := true }) 7
        { PlayerState.new with pendingDeath := true } (by simp [singleInterpolator])
    exact ⟨self', hfirst, self2, hsecond⟩⟩

/-! ## The tick routine -/

/-- C4: in non-realtime mode, for a tracked player with `totalFrames >= 2` and
`newerFrame.timestamp != olderFrame.timestamp`, `tick(dt)` sets the rotation of both icons of
`interpolatedState` to `older.rotation + r * (newer.rotation - older.rotation)` with
`r = (timeCounter - olderFrame.timestamp) / settings.expectedDelta`, `timeCounter` being the
value before the tick; the only division of the iteration has the configured
`expectedDelta` as its denominator, not the measured delta. -/
theorem C4_tick_rotation_lerp (self : PlayerInterpolator) (dt : ℚ) (playerId : Nat)
    (player : PlayerState)
    (hmode : self.settings.realtime = false)
    (htracked : self.players playerId = some player)
    (hframes : 2 ≤ player.totalFrames)
    (hdelta : player.newerFrame.timestamp ≠ player.olderFrame.timestamp) :
    ∃ player',
      (tick self dt).players playerId = some player' ∧
      player'.interpolatedState.player1.rotation =
        player.olderFrame.visual.player1.rotation +
          (player.timeCounter - player.olderFrame.timestamp) / self.settings.expectedDelta *
            (player.newerFrame.visual.player1.rotation -
              player.olderFrame.visual.player1.rotation) ∧
      player'.interpolatedState.player2.rotation =
        player.olderFrame.visual.player2.rotation +
          (player.timeCounter - player.olderFrame.timestamp) / self.settings.expectedDelta *
            (player.newerFrame.visual.player2.rotation -
              player.olderFrame.visual.player2.rotation) ∧
      tickDivisions self dt playerId =
        [(player.timeCounter - player.olderFrame.timestamp, self.settings.expectedDelta)] := by
  have hstep := tickPlayer_interpolates self.settings dt player hframes hdelta
  refine ⟨(tickPlayer self.settings dt player).player, ?_, ?_, ?_, ?_⟩
  · rw [tick_buffered self dt playerId hmode, htracked]
    rfl
  · rw [hstep]
    simp only [lerpPlayer]
    rw [lerpSpecific_rotation]
    rfl
  · rw [hstep]
    simp only [lerpPlayer]
    rw [lerpSpecific_rotation]
    rfl
  · rw [tickDivisions_buffered self dt playerId player hmode htracked, hstep]

/-- C4 applied to a player half a nominal delta after its older sample: the rotations are
half way between the two samples. -/
theorem C4_tick_rotation_lerp_witness :
    (singleInterpolator bufferedSettings 7 movingPlayer).settings.realtime = false ∧
    (singleInterpolator bufferedSettings 7 movingPlayer).players 7 = some movingPlayer ∧
    2 ≤ movingPlayer.totalFrames ∧
    movingPlayer.newerFrame.timestamp ≠ movingPlayer.olderFrame.timestamp ∧
    ∃ player',
      (tick (singleInterpolator bufferedSettings 7 movingPlayer) (1 / 60)).players 7 =
        some player' ∧
      player'.interpolatedState.player1.rotation = 45 / 2 ∧
      player'.interpolatedState.player2.rotation = 135 := by
  have htracked : (singleInterpolator bufferedSettings 7 movingPlayer).players 7 =
      some movingPlayer := by simp [singleInterpolator]
  have hdelta : movingPlayer.newerFrame.timestamp ≠ movingPlayer.olderFrame.timestamp := by
    norm_num [movingPlayer, LerpFrame.ofPlayerData, sampleAt]
  have hframes : 2 ≤ movingPlayer.totalFrames := by decide
  obtain ⟨player', hget, hrot1, hrot2, _⟩ :=
    C4_tick_rotation_lerp (singleInterpolator bufferedSettings 7 movingPlayer) (1 / 60) 7
      movingPlayer rfl htracked hframes hdelta
  refine ⟨rfl, htracked, hframes, hdelta, player', hget, ?_, ?_⟩
  · rw [hrot1]
    norm_num [movingPlayer, LerpFrame.ofPlayerData, sampleAt, iconAt, singleInterpolator,
      bufferedSettings]
  · rw [hrot2]
    norm_num [movingPlayer, LerpFrame.ofPlayerData, sampleAt, iconAt, singleInterpolator,
      bufferedSettings]

/-- C5: in non-realtime mode, for a tracked player with `totalFrames >= 2` whose
`olderFrame.timestamp` equals `newerFrame.timestamp`, `tick(dt)` leaves the player's whole
state (so `interpolatedState` and `timeCounter` too) unchanged and evaluates no division for
that player, for every `dt` and every `settings.expectedDelta`. -/
theorem C5_tick_zero_delta_skip (self : PlayerInterpolator) (dt : ℚ) (playerId : Nat)
    (player : PlayerState)
    (hmode : self.settings.realtime = false)
    (htracked : self.players playerId = some player)
    (_hframes : 2 ≤ player.totalFrames)
    (hzero : player.olderFrame.timestamp = player.newerFrame.timestamp) :
    (tick self dt).players playerId = some player ∧ tickDivisions self dt playerId = [] := by
  have hstep := tickPlayer_zero_delta self.settings dt player hzero
  constructor
  · rw [tick_buffered self dt playerId hmode, htracked]
    simp [hstep]
  · rw [tickDivisions_buffered self dt playerId player hmode htracked, hstep]

/-- C5 applied to a player with two samples of equal timestamp, with a zero nominal delta. -/
theorem C5_tick_zero_delta_skip_witness :
    (singleInterpolator { realtime := false, expectedDelta := 0 } 7 stalledPlayer).settings.realtime
      = false ∧
    (singleInterpolator { realtime := false, expectedDelta := 0 } 7 stalledPlayer).players 7 =
      some stalledPlayer ∧
    2 ≤ stalledPlayer.totalFrames ∧
    stalledPlayer.olderFrame.timestamp = stalledPlayer.newerFrame.timestamp ∧
    (tick (singleInterpolator { realtime := false, expectedDelta := 0 } 7 stalledPlayer)
        (1 / 60)).players 7 = some stalledPlayer ∧
    tickDivisions (singleInterpolator { realtime := false, expectedDelta := 0 } 7 stalledPlayer)
      (1 / 60) 7 = [] :=
  ⟨rfl, by simp [singleInterpolator], by decide, rfl,
    C5_tick_zero_delta_skip
      (singleInterpolator { realtime := false, expectedDelta := 0 } 7 stalledPlayer) (1 / 60) 7
      stalledPlayer rfl (by simp [singleInterpolator]) (by decide) rfl⟩

/-- C6: when the older icon is a spider and the vertical displacement
`|older.position.y - newer.position.y|` exceeds 33, `lerpSpecific` outputs, for every ratio
`r`, `position.x = older.x + r * (newer.x - older.x)` and `position.y = older.position.y`. -/
theorem C6_lerpSpecific_spider_snap (older newer out : SpecificIconData) (lerpRatio : ℚ)
    (hspider : older.iconType = PlayerIconType.Spider)
    (hjump : |older.position.y - newer.position.y| > 33) :
    (lerpSpecific older newer out lerpRatio).position.x =
        older.position.x + lerpRatio * (newer.position.x - older.position.x) ∧
      (lerpSpecific older newer out lerpRatio).position.y = older.position.y := by
  rw [lerpSpecific_position_snap older newer out lerpRatio ⟨hspider, le_of_lt hjump⟩]
  exact ⟨rfl, rfl⟩

/-- C6 applied to a spider that flips from the floor to a ceiling 40 units higher. -/
theorem C6_lerpSpecific_spider_snap_witness :
    (iconAt 0 0 0 PlayerIconType.Spider).iconType = PlayerIconType.Spider ∧
    |(iconAt 0 0 0 PlayerIconType.Spider).position.y -
        (iconAt 10 40 0 PlayerIconType.Spider).position.y| > 33 ∧
    (lerpSpecific (iconAt 0 0 0 PlayerIconType.Spider) (iconAt 10 40 0 PlayerIconType.Spider)
        SpecificIconData.zero (1 / 2)).position.x =
      (iconAt 0 0 0 PlayerIconType.Spider).position.x +
        1 / 2 * ((iconAt 10 40 0 PlayerIconType.Spider).position.x -
          (iconAt 0 0 0 PlayerIconType.Spider).position.x) ∧
    (lerpSpecific (iconAt 0 0 0 PlayerIconType.Spider) (iconAt 10 40 0 PlayerIconType.Spider)
        SpecificIconData.zero (1 / 2)).position.y =
      (iconAt 0 0 0 PlayerIconType.Spider).position.y :=
  ⟨rfl, by norm_num [iconAt],
    C6_lerpSpecific_spider_snap (iconAt 0 0 0 PlayerIconType.Spider)
      (iconAt 10 40 0 PlayerIconType.Spider) SpecificIconData.zero (1 / 2) rfl
      (by norm_num [iconAt])⟩

/-! ## Endpoints of the interpolation -/

/-- C7 (as stated) fails on a spider that flips vertically: at ratio 1 the interpolated
position keeps the older sample's `y`, so it is not the newer sample's position. -/
theorem C7_lerpSpecific_endpoints_counterexample :
    (lerpSpecific (iconAt 0 0 0 PlayerIconType.Spider) (iconAt 10 40 0 PlayerIconType.Spider)
        SpecificIconData.zero 1).position = { x := 10, y := 0 } ∧
    (iconAt 10 40 0 PlayerIconType.Spider).position = { x := 10, y := 40 } ∧
    (lerpSpecific (iconAt 0 0 0 PlayerIconType.Spider) (iconAt 10 40 0 PlayerIconType.Spider)
        SpecificIconData.zero 1).position ≠ (iconAt 10 40 0 PlayerIconType.Spider).position := by
  have hsnap : (iconAt 0 0 0 PlayerIconType.Spider).iconType = PlayerIconType.Spider ∧
      |(iconAt 0 0 0 PlayerIconType.Spider).position.y -
        (iconAt 10 40 0 PlayerIconType.Spider).position.y| ≥ 33 := by
    refine ⟨rfl, ?_⟩
    norm_num [iconAt]
  rw [lerpSpecific_position_snap _ _ _ _ hsnap]
  norm_num [iconAt, stdLerp]

/-- C7 (amended): for every pair of older and newer icon samples, `lerpSpecific` at ratio 0
yields exactly the older position and rotation; at ratio 1 it yields exactly the newer
rotation and the newer `position.x`, and `position.y` is the newer one unless the older icon
is a spider and `|older.y - newer.y| >= 33`, in which case it stays the older one.  For the
positions (0,0) and (10,0) the interpolated `x` is 0 at ratio 0, 10 at ratio 1 and 5 at
ratio 0.5. -/
theorem C7_lerpSpecific_endpoints (older newer out : SpecificIconData) :
    (lerpSpecific older newer out 0).position = older.position ∧
    (lerpSpecific older newer out 0).rotation = older.rotation ∧
    (lerpSpecific older newer out 1).rotation = newer.rotation ∧
    (lerpSpecific older newer out 1).position.x = newer.position.x ∧
    (lerpSpecific older newer out 1).position.y =
      (if older.iconType = PlayerIconType.Spider ∧ |older.position.y - newer.position.y| ≥ 33
        then older.position.y else newer.position.y) ∧
    (lerpSpecific (iconAt 0 0 0 PlayerIconType.Cube) (iconAt 10 0 0 PlayerIconType.Cube)
      out 0).position.x = 0 ∧
    (lerpSpecific (iconAt 0 0 0 PlayerIconType.Cube) (iconAt 10 0 0 PlayerIconType.Cube)
      out 1).position.x = 10 ∧
    (lerpSpecific (iconAt 0 0 0 PlayerIconType.Cube) (iconAt 10 0 0 PlayerIconType.Cube)
      out (1 / 2)).position.x = 5 := by
  have hcube : ∀ r : ℚ,
      (lerpSpecific (iconAt 0 0 0 PlayerIconType.Cube) (iconAt 10 0 0 PlayerIconType.Cube)
        out r).position.x = 10 * r := by
    intro r
    rw [lerpSpecific_position_blend _ _ _ _ (by simp [iconAt])]
    simp [CCPoint.lerp, iconAt]
  refine ⟨?_, ?_, ?_, ?_, ?_, ?_, ?_, ?_⟩
  · by_cases hsnap : older.iconType = PlayerIconType.Spider ∧
        |older.position.y - newer.position.y| ≥ 33
    · rw [lerpSpecific_position_snap _ _ _ _ hsnap]
      simp [stdLerp]
    · rw [lerpSpecific_position_blend _ _ _ _ hsnap]
      simp [CCPoint.lerp]
  · rw [lerpSpecific_rotation]
    simp [stdLerp]
  · rw [lerpSpecific_rotation]
    simp [stdLerp]
  · by_cases hsnap : older.iconType = PlayerIconType.Spider ∧
        |older.position.y - newer.position.y| ≥ 33
    · rw [lerpSpecific_position_snap _ _ _ _ hsnap]
      simp [stdLerp]
    · rw [lerpSpecific_position_blend _ _ _ _ hsnap]
      simp [CCPoint.lerp]
  · by_cases hsnap : older.iconType = PlayerIconType.Spider ∧
        |older.position.y - newer.position.y| ≥ 33
    · rw [lerpSpecific_position_snap _ _ _ _ hsnap, if_pos hsnap]
    · rw [lerpSpecific_position_blend _ _ _ _ hsnap, if_neg hsnap]
      simp [CCPoint.lerp]
  · rw [hcube]
    norm_num
  · rw [hcube]
    norm_num
  · rw [hcube]
    norm_num

/-! ## Staleness -/

/-- C8: for a tracked player, `isPlayerStale(id, t)` returns true exactly when the player's
`updateCounter` is non-zero and not `util::math::equal` to `t`; a player whose
`updateCounter` is 0 is never stale.  The method writes nothing, so it has no output state. -/
theorem C8_isPlayerStale_iff (errorMargin : ℚ) (self : PlayerInterpolator) (playerId : Nat)
    (lastServerPacket : ℚ) (player : PlayerState)
    (htracked : self.players playerId = some player) :
    ∃ stale,
      isPlayerStale errorMargin self playerId lastServerPacket = Except.ok stale ∧
      (stale = true ↔
        player.updateCounter ≠ 0 ∧
          util.math.equal errorMargin player.updateCounter lastServerPacket = false) ∧
      (player.updateCounter = 0 → stale = false) := by
  refine ⟨decide (player.updateCounter ≠ 0) &&
      !(util.math.equal errorMargin player.updateCounter lastServerPacket), ?_, ?_, ?_⟩
  · simp [isPlayerStale, htracked]
  · simp
  · intro hzero
    simp [hzero]

/-- C8 applied to a player last updated at marker 3 and asked about marker 4. -/
theorem C8_isPlayerStale_iff_witness :
    (singleInterpolator bufferedSettings 7 { PlayerState.new with updateCounter := 3 }).players 7 =
      some { PlayerState.new with updateCounter := 3 } ∧
    isPlayerStale (1 / 500)
      (singleInterpolator bufferedSettings 7 { PlayerState.new with updateCounter := 3 }) 7 4 =
      Except.ok true := by
  have htracked :
      (singleInterpolator bufferedSettings 7 { PlayerState.new with updateCounter := 3 }).players 7 =
        some { PlayerState.new with updateCounter := 3 } := by simp [singleInterpolator]
  obtain ⟨stale, hcall, hiff, _⟩ :=
    C8_isPlayerStale_iff (1 / 500)
      (singleInterpolator bufferedSettings 7 { PlayerState.new with updateCounter := 3 }) 7 4
      { PlayerState.new with updateCounter := 3 } htracked
  have hstale : stale = true := by
    rw [hiff]
    constructor
    · norm_num
    · simp [util.math.equal]
      norm_num [abs_of_nonneg]
  rw [hstale] at hcall
  exact ⟨htracked, hcall⟩

/-- C9 (as stated) fails when the new marker differs from the stored one by less than the
error margin: with margin 1/500, after an update at marker 1 the marker 1001/1000 differs
from 1, yet the player is not stale. -/
theorem C9_stale_after_update_counterexample :
    ∃ self',
      updatePlayer (1 / 500) (singleInterpolator bufferedSettings 7 PlayerState.new) 7
        (sampleAt 1 10 0 0) 1 = Except.ok self' ∧
      (1001 / 1000 : ℚ) ≠ 1 ∧ (1 : ℚ) ≠ 0 ∧
      isPlayerStale (1 / 500) self' 7 (1001 / 1000) = Except.ok false := by
  refine ⟨_, updatePlayer_tracked (1 / 500) _ 7 PlayerState.new _ 1
    (by simp [singleInterpolator]), by norm_num, by norm_num, ?_⟩
  simp only [isPlayerStale, Function.update_same, updatePlayerState_updateCounter]
  simp [util.math.equal]
  norm_num [abs_of_nonneg]

/-- C9 (amended): with a positive error margin, right after `updatePlayer(id, sample, c)` on
a tracked player `isPlayerStale(id, c)` returns false; and for every marker `c'` that is not
`util::math::equal` to `c`, while `c != 0` and no further update happens,
`isPlayerStale(id, c')` returns true. -/
theorem C9_stale_after_update (errorMargin : ℚ) (self : PlayerInterpolator) (playerId : Nat)
    (player : PlayerState) (data : PlayerData) (updateCounter : ℚ)
    (hmargin : 0 < errorMargin)
    (htracked : self.players playerId = some player) :
    ∃ self',
      updatePlayer errorMargin self playerId data updateCounter = Except.ok self' ∧
      isPlayerStale errorMargin self' playerId updateCounter = Except.ok false ∧
      ∀ later : ℚ, updateCounter ≠ 0 →
        util.math.equal errorMargin updateCounter later = false →
        isPlayerStale errorMargin self' playerId later = Except.ok true := by
  refine ⟨_, updatePlayer_tracked errorMargin self playerId player data updateCounter htracked,
    ?_, ?_⟩
  · simp only [isPlayerStale, Function.update_same, updatePlayerState_updateCounter]
    simp [util.math.equal, hmargin]
  · intro later hnonzero hdiffers
    simp only [isPlayerStale, Function.update_same, updatePlayerState_updateCounter]
    simp [hnonzero, hdiffers]

/-- C9 (amended) applied to an update at marker 1 followed by a query at marker 2. -/
theorem C9_stale_after_update_witness :
    (0 : ℚ) < 1 / 500 ∧
    (singleInterpolator bufferedSettings 7 PlayerState.new).players 7 = some PlayerState.new ∧
    ∃ self',
      updatePlayer (1 / 500) (singleInterpolator bufferedSettings 7 PlayerState.new) 7
        (sampleAt 1 10 0 0) 1 = Except.ok self' ∧
      isPlayerStale (1 / 500) self' 7 1 = Except.ok false ∧
      isPlayerStale (1 / 500) self' 7 2 = Except.ok true := by
  have htracked : (singleInterpolator bufferedSettings 7 PlayerState.new).players 7 =
      some PlayerState.new := by simp [singleInterpolator]
  obtain ⟨self', hok, hfresh, hlater⟩ :=
    C9_stale_after_update (1 / 500) (singleInterpolator bufferedSettings 7 PlayerState.new) 7
      PlayerState.new (sampleAt 1 10 0 0) 1 (by norm_num) htracked
  refine ⟨by norm_num, htracked, self', hok, hfresh, hlater 2 (by norm_num) ?_⟩
  simp [util.math.equal]
  norm_num [abs_of_nonneg]

/-! ## Removal -/

/-- C10: `removePlayer` never fails; on a map without `id` it returns the interpolator
unchanged; in general it leaves `id` untracked, every other player and the settings as they
were; and removing the same id twice gives the same interpolator as removing it once. -/
theorem C10_removePlayer_idempotent (self : PlayerInterpolator) (playerId : Nat) :
    (self.players playerId = none → removePlayer self playerId = self) ∧
    (removePlayer self playerId).players playerId = none ∧
    (∀ other, other ≠ playerId →
      (removePlayer self playerId).players other = self.players other) ∧
    (removePlayer self playerId).settings = self.settings ∧
    removePlayer (removePlayer self playerId) playerId = removePlayer self playerId := by
  refine ⟨?_, ?_, ?_, rfl, ?_⟩
  · intro habsent
    apply ext_of_fields
    · rfl
    · simp [removePlayer, habsent]
  · simp [removePlayer]
  · intro other hother
    simp [removePlayer, Function.update, hother]
  · apply ext_of_fields
    · rfl
    · simp [removePlayer]

/-- C10 applied to an interpolator that tracks nobody and to one that tracks player 7. -/
theorem C10_removePlayer_idempotent_witness :
    ((emptyInterpolator bufferedSettings).players 7 = none ∧
      removePlayer (emptyInterpolator bufferedSettings) 7 = emptyInterpolator bufferedSettings) ∧
    ((7 : Nat) ≠ 8 ∧
      (removePlayer (singleInterpolator bufferedSettings 8 movingPlayer) 7).players 8 =
        (singleInterpolator bufferedSettings 8 movingPlayer).players 8) :=
  ⟨⟨rfl, (C10_removePlayer_idempotent (emptyInterpolator bufferedSettings) 7).1 rfl⟩,
    ⟨by decide,
      (C10_removePlayer_idempotent (singleInterpolator bufferedSettings 8 movingPlayer) 7).2.2.1 8
        (by decide)⟩⟩

/-! ## Further facts about the operations -/

namespace PlayerInterpolator

theorem updatePlayer_untracked (errorMargin : ℚ) (self : PlayerInterpolator) (playerId : Nat)
    (data : PlayerData) (updateCounter : ℚ) (habsent : self.players playerId = none) :
    updatePlayer errorMargin self playerId data updateCounter =
      Except.error Exception.out_of_range := by
  simp [updatePlayer, habsent]

theorem updatePlayerState_realtime (errorMargin : ℚ) (settings : InterpolatorSettings)
    (data : PlayerData) (updateCounter : ℚ) (player : PlayerState)
    (hmode : settings.realtime = true) :
    (updatePlayerState errorMargin settings data updateCounter player).interpolatedState =
        { player.interpolatedState with player1 := data.player1, player2 := data.player2 } ∧
      (updatePlayerState errorMargin settings data updateCounter player).olderFrame =
        player.olderFrame ∧
      (updatePlayerState errorMargin settings data updateCounter player).newerFrame =
        player.newerFrame ∧
      (updatePlayerState errorMargin settings data updateCounter player).timeCounter =
        player.timeCounter := by
  unfold updatePlayerState
  by_cases heq : util.math.equal errorMargin player.lastDeathTimestamp data.lastDeathTimestamp = true
  · simp [heq, hmode]
  · by_cases hfr : 0 < player.totalFrames
    · simp [heq, hfr, hmode]
    · simp [heq, hfr, hmode]

theorem tick_realtime (self : PlayerInterpolator) (dt : ℚ)
    (hmode : self.settings.realtime = true) : tick self dt = self := by
  simp [tick, hmode]

theorem tickPlayer_few_frames (settings : InterpolatorSettings) (dt : ℚ) (player : PlayerState)
    (hframes : player.totalFrames < 2) :
    tickPlayer settings dt player = { player := player, divisions := [] } := by
  unfold tickPlayer
  rw [if_pos hframes]

theorem tickLoop_apply (settings : InterpolatorSettings) (dt : ℚ) (order : List Nat)
    (hnodup : order.Nodup) (players : Nat → Option PlayerState) (playerId : Nat) :
    tickLoop settings dt order players playerId =
      if playerId ∈ order then
        (players playerId).map (fun player => (tickPlayer settings dt player).player)
      else players playerId := by
  induction order generalizing players with
  | nil => simp [tickLoop]
  | cons head rest ih =>
    obtain ⟨hhead, hrest⟩ := List.nodup_cons.mp hnodup
    unfold tickLoop
    cases hentry : players head with
    | none =>
      simp only []
      rw [ih hrest]
      by_cases hsame : playerId = head
      · subst hsame
        simp [hhead, hentry]
      · simp [hsame]
    | some player =>
      simp only []
      rw [ih hrest]
      by_cases hsame : playerId = head
      · subst hsame
        simp [hhead, hentry]
      · simp [hsame, Function.update]

end PlayerInterpolator

/-! ## Realtime mode and missing players -/

/-- C11: in realtime mode, `updatePlayer` on a tracked player copies the sample's `player1`
and `player2` into `interpolatedState.player1` and `interpolatedState.player2` and buffers
nothing: `olderFrame`, `newerFrame` and `timeCounter` stay exactly as they were. -/
theorem C11_updatePlayer_realtime_copies (errorMargin : ℚ) (self : PlayerInterpolator)
    (playerId : Nat) (player : PlayerState) (data : PlayerData) (updateCounter : ℚ)
    (hmode : self.settings.realtime = true)
    (htracked : self.players playerId = some player) :
    ∃ self' player',
      updatePlayer errorMargin self playerId data updateCounter = Except.ok self' ∧
      self'.players playerId = some player' ∧
      player'.interpolatedState.player1 = data.player1 ∧
      player'.interpolatedState.player2 = data.player2 ∧
      player'.olderFrame = player.olderFrame ∧
      player'.newerFrame = player.newerFrame ∧
      player'.timeCounter = player.timeCounter := by
  obtain ⟨hstate, hold, hnew, htime⟩ :=
    updatePlayerState_realtime errorMargin self.settings data updateCounter player hmode
  refine ⟨_, updatePlayerState errorMargin self.settings data updateCounter player,
    updatePlayer_tracked errorMargin self playerId player data updateCounter htracked,
    ?_, ?_, ?_, hold, hnew, htime⟩
  · simp
  · rw [hstate]
  · rw [hstate]

/-- C11 applied to a realtime interpolator whose player holds two buffered samples. -/
theorem C11_updatePlayer_realtime_copies_witness :
    (singleInterpolator realtimeSettings 7 movingPlayer).settings.realtime = true ∧
    (singleInterpolator realtimeSettings 7 movingPlayer).players 7 = some movingPlayer ∧
    ∃ self' player',
      updatePlayer (1 / 500) (singleInterpolator realtimeSettings 7 movingPlayer) 7
        (sampleAt 2 20 5 0) 42 = Except.ok self' ∧
      self'.players 7 = some player' ∧
      player'.interpolatedState.player1 = (sampleAt 2 20 5 0).player1 ∧
      player'.interpolatedState.player2 = (sampleAt 2 20 5 0).player2 ∧
      player'.olderFrame = movingPlayer.olderFrame ∧
      player'.newerFrame = movingPlayer.newerFrame ∧
      player'.timeCounter = movingPlayer.timeCounter :=
  ⟨rfl, by simp [singleInterpolator],
    C11_updatePlayer_realtime_copies (1 / 500) (singleInterpolator realtimeSettings 7 movingPlayer)
      7 movingPlayer (sampleAt 2 20 5 0) 42 rfl (by simp [singleInterpolator])⟩

/-- C12: `getPlayerState(id)` raises `std::out_of_range` exactly when `id` is not in the
player map; for a tracked id it returns that player's `interpolatedState` (the method writes
nothing, so it has no output state).  It fails on a newly constructed interpolator, and
adding other ids does not change that. -/
theorem C12_getPlayerState_fails_iff_untracked (self : PlayerInterpolator) (playerId : Nat) :
    (getPlayerState self playerId = Except.error Exception.out_of_range ↔
      self.players playerId = none) ∧
    (∀ player, self.players playerId = some player →
      getPlayerState self playerId = Except.ok player.interpolatedState) ∧
    (∀ settings,
      getPlayerState (emptyInterpolator settings) playerId =
        Except.error Exception.out_of_range) ∧
    (∀ other, other ≠ playerId → self.players playerId = none →
      getPlayerState (addPlayer self other) playerId = Except.error Exception.out_of_range) := by
  refine ⟨?_, ?_, ?_, ?_⟩
  · cases hentry : self.players playerId <;> simp [getPlayerState, hentry]
  · intro player htracked
    simp [getPlayerState, htracked]
  · intro settings
    simp [getPlayerState, emptyInterpolator]
  · intro other hother habsent
    have hstill : (addPlayer self other).players playerId = none := by
      unfold addPlayer
      cases hentry : self.players other with
      | none => simp [Function.update, Ne.symm hother, habsent]
      | some existing => simpa using habsent
    simp [getPlayerState, hstill]

/-- C12 applied to a tracked player, and to the id 8 that was never added. -/
theorem C12_getPlayerState_fails_iff_untracked_witness :
    ((singleInterpolator bufferedSettings 7 movingPlayer).players 7 = some movingPlayer ∧
      getPlayerState (singleInterpolator bufferedSettings 7 movingPlayer) 7 =
        Except.ok movingPlayer.interpolatedState) ∧
    ((7 : Nat) ≠ 8 ∧ (emptyInterpolator bufferedSettings).players 8 = none ∧
      getPlayerState (addPlayer (emptyInterpolator bufferedSettings) 7) 8 =
        Except.error Exception.out_of_range) :=
  ⟨⟨by simp [singleInterpolator],
      (C12_getPlayerState_fails_iff_untracked
        (singleInterpolator bufferedSettings 7 movingPlayer) 7).2.1 movingPlayer
        (by simp [singleInterpolator])⟩,
    ⟨by decide, rfl,
      (C12_getPlayerState_fails_iff_untracked (emptyInterpolator bufferedSettings) 8).2.2.2 7
        (by decide) rfl⟩⟩

/-- C13 (as stated) fails: a sample for an id that is not tracked is not skipped, the call
raises `std::out_of_range`. -/
theorem C13_updatePlayer_missing_counterexample :
    (emptyInterpolator bufferedSettings).players 7 = none ∧
    updatePlayer (1 / 500) (emptyInterpolator bufferedSettings) 7 (sampleAt 1 10 0 0) 1 =
      Except.error Exception.out_of_range ∧
    ¬ ∃ self',
      updatePlayer (1 / 500) (emptyInterpolator bufferedSettings) 7 (sampleAt 1 10 0 0) 1 =
        Except.ok self' := by
  have hraise :
      updatePlayer (1 / 500) (emptyInterpolator bufferedSettings) 7 (sampleAt 1 10 0 0) 1 =
        Except.error Exception.out_of_range :=
    updatePlayer_untracked (1 / 500) (emptyInterpolator bufferedSettings) 7 _ 1 rfl
  refine ⟨rfl, hraise, ?_⟩
  rintro ⟨self', hok⟩
  rw [hraise] at hok
  cases hok

/-- C13 (amended): a sample for a missing player is an error: for every player map and every
id that is not in it, `updatePlayer(id, sample, c)` raises `std::out_of_range`, in either
mode; the exception comes from `players.at`, the first statement, so no state is returned
and nothing has been written. -/
theorem C13_updatePlayer_missing_raises (errorMargin : ℚ) (self : PlayerInterpolator)
    (playerId : Nat) (data : PlayerData) (updateCounter : ℚ)
    (habsent : self.players playerId = none) :
    updatePlayer errorMargin self playerId data updateCounter =
      Except.error Exception.out_of_range :=
  updatePlayer_untracked errorMargin self playerId data updateCounter habsent

/-- C13 (amended) applied to an interpolator that tracks player 7 only, for the id 8. -/
theorem C13_updatePlayer_missing_raises_witness :
    (singleInterpolator bufferedSettings 7 movingPlayer).players 8 = none ∧
    updatePlayer (1 / 500) (singleInterpolator bufferedSettings 7 movingPlayer) 8
      (sampleAt 1 10 0 0) 1 = Except.error Exception.out_of_range :=
  ⟨by simp [singleInterpolator],
    C13_updatePlayer_missing_raises (1 / 500) (singleInterpolator bufferedSettings 7 movingPlayer)
      8 (sampleAt 1 10 0 0) 1 (by simp [singleInterpolator])⟩

/-! ## Writers of the interpolated state -/

/-- C16: `interpolatedState` has a single writer per mode.  In non-realtime mode
`updatePlayer` either raises (untracked id, nothing written) or returns an interpolator in
which every previously tracked player has the `interpolatedState` it had.  `addPlayer`
leaves every tracked player's whole state as it was; every player still tracked after
`removePlayer` has the state it had; `swapDeathStatus` either raises or keeps every
player's `interpolatedState`.  `isPlayerStale` returns a flag only and writes nothing. -/
theorem C16_interpolatedState_single_writer (errorMargin : ℚ) (self : PlayerInterpolator)
    (playerId : Nat) :
    (∀ (data : PlayerData) (updateCounter : ℚ), self.settings.realtime = false →
      (self.players playerId = none ∧
        updatePlayer errorMargin self playerId data updateCounter =
          Except.error Exception.out_of_range) ∨
      ∃ self', updatePlayer errorMargin self playerId data updateCounter = Except.ok self' ∧
        ∀ tracked player, self.players tracked = some player →
          ∃ player', self'.players tracked = some player' ∧
            player'.interpolatedState = player.interpolatedState) ∧
    (∀ tracked player, self.players tracked = some player →
      (addPlayer self playerId).players tracked = some player) ∧
    (∀ tracked player, (removePlayer self playerId).players tracked = some player →
      self.players tracked = some player) ∧
    ((self.players playerId = none ∧
        swapDeathStatus self playerId = Except.error Exception.out_of_range) ∨
      ∃ death self', swapDeathStatus self playerId = Except.ok (death, self') ∧
        ∀ tracked player, self.players tracked = some player →
          ∃ player', self'.players tracked = some player' ∧
            player'.interpolatedState = player.interpolatedState) := by
  refine ⟨?_, ?_, ?_, ?_⟩
  · intro data updateCounter hmode
    cases hentry : self.players playerId with
    | none =>
      exact Or.inl ⟨rfl, updatePlayer_untracked errorMargin self playerId data updateCounter hentry⟩
    | some current =>
      refine Or.inr ⟨_, updatePlayer_tracked errorMargin self playerId current data updateCounter
        hentry, ?_⟩
      intro tracked player htracked
      by_cases hsame : tracked = playerId
      · subst hsame
        rw [hentry] at htracked
        cases htracked
        exact ⟨_, by simp,
          (updatePlayerState_buffered errorMargin self.settings data updateCounter current
            hmode).2.2.2⟩
      · exact ⟨player, by simp [Function.update, hsame, htracked], rfl⟩
  · intro tracked player htracked
    unfold addPlayer
    cases hentry : self.players playerId with
    | none =>
      have hother : tracked ≠ playerId := by
        intro hsame
        rw [hsame, hentry] at htracked
        cases htracked
      simp [Function.update, hother, htracked]
    | some existing => simpa using htracked
  · intro tracked player hremains
    by_cases hsame : tracked = playerId
    · subst hsame
      simp [removePlayer] at hremains
    · simpa [removePlayer, Function.update, hsame] using hremains
  · cases hentry : self.players playerId with
    | none =>
      refine Or.inl ⟨rfl, ?_⟩
      simp [swapDeathStatus, hentry]
    | some current =>
      refine Or.inr ⟨current.pendingDeath,
        { self with
          players := Function.update self.players playerId
            (some { current with pendingDeath := false }) }, ?_, ?_⟩
      · simp [swapDeathStatus, hentry]
      · intro tracked player htracked
        by_cases hsame : tracked = playerId
        · subst hsame
          rw [hentry] at htracked
          cases htracked
          exact ⟨{ current with pendingDeath := false }, by simp, rfl⟩
        · exact ⟨player, by simp [Function.update, hsame, htracked], rfl⟩

/-- C16 applied to an interpolator tracking player 7: a buffered sample for 7 and adding
player 8 both leave the pose of player 7 as it was. -/
theorem C16_interpolatedState_single_writer_witness :
    (singleInterpolator bufferedSettings 7 movingPlayer).settings.realtime = false ∧
    (singleInterpolator bufferedSettings 7 movingPlayer).players 7 = some movingPlayer ∧
    (∃ self' player',
      updatePlayer (1 / 500) (singleInterpolator bufferedSettings 7 movingPlayer) 7
        (sampleAt 2 20 5 0) 42 = Except.ok self' ∧
      self'.players 7 = some player' ∧
      player'.interpolatedState = movingPlayer.interpolatedState) ∧
    (addPlayer (singleInterpolator bufferedSettings 7 movingPlayer) 8).players 7 =
      some movingPlayer := by
  have htracked : (singleInterpolator bufferedSettings 7 movingPlayer).players 7 =
      some movingPlayer := by simp [singleInterpolator]
  obtain ⟨hupdate, hadd, _, _⟩ :=
    C16_interpolatedState_single_writer (1 / 500)
      (singleInterpolator bufferedSettings 7 movingPlayer) 7
  obtain ⟨_, hadd8, _, _⟩ :=
    C16_interpolatedState_single_writer (1 / 500)
      (singleInterpolator bufferedSettings 7 movingPlayer) 8
  refine ⟨rfl, htracked, ?_, hadd8 7 movingPlayer htracked⟩
  rcases hupdate (sampleAt 2 20 5 0) 42 rfl with ⟨habsent, _⟩ | ⟨self', hok, hframe⟩
  · rw [htracked] at habsent
    cases habsent
  · obtain ⟨player', hget, hpose⟩ := hframe 7 movingPlayer htracked
    exact ⟨self', player', hok, hget, hpose⟩

/-! ## Effect of a tick -/

/-- C17: for a tracked player with `totalFrames < 2`, `tick(dt)` leaves the player's entire
state unchanged and evaluates no division for it, for every `dt` and in either mode. -/
theorem C17_tick_skips_few_frames (self : PlayerInterpolator) (dt : ℚ) (playerId : Nat)
    (player : PlayerState)
    (htracked : self.players playerId = some player)
    (hframes : player.totalFrames < 2) :
    (tick self dt).players playerId = some player ∧ tickDivisions self dt playerId = [] := by
  cases hmode : self.settings.realtime with
  | true =>
    rw [tick_realtime self dt hmode]
    exact ⟨htracked, by simp [tickDivisions, hmode]⟩
  | false =>
    have hstep := tickPlayer_few_frames self.settings dt player hframes
    constructor
    · rw [tick_buffered self dt playerId hmode, htracked]
      simp [hstep]
    · rw [tickDivisions_buffered self dt playerId player hmode htracked, hstep]

/-- C17 applied to a player that has received one sample. -/
theorem C17_tick_skips_few_frames_witness :
    (singleInterpolator bufferedSettings 7 { movingPlayer with totalFrames := 1 }).players 7 =
      some { movingPlayer with totalFrames := 1 } ∧
    ({ movingPlayer with totalFrames := 1 } : PlayerState).totalFrames < 2 ∧
    (tick (singleInterpolator bufferedSettings 7 { movingPlayer with totalFrames := 1 })
      (1 / 60)).players 7 = some { movingPlayer with totalFrames := 1 } ∧
    tickDivisions (singleInterpolator bufferedSettings 7 { movingPlayer with totalFrames := 1 })
      (1 / 60) 7 = [] :=
  ⟨by simp [singleInterpolator], by decide,
    C17_tick_skips_few_frames
      (singleInterpolator bufferedSettings 7 { movingPlayer with totalFrames := 1 }) (1 / 60) 7
      { movingPlayer with totalFrames := 1 } (by simp [singleInterpolator]) (by decide)⟩

/-- C18: in non-realtime mode, for a tracked player that `tick(dt)` interpolates
(`totalFrames >= 2`, non-zero measured delta), `timeCounter` after the tick is `timeCounter`
before plus `dt`; the pose is computed from the `timeCounter` before the increment; and
`olderFrame`, `newerFrame`, `totalFrames`, `updateCounter`, `pendingDeath` and
`lastDeathTimestamp` are unchanged. -/
theorem C18_tick_advances_timeCounter (self : PlayerInterpolator) (dt : ℚ) (playerId : Nat)
    (player : PlayerState)
    (hmode : self.settings.realtime = false)
    (htracked : self.players playerId = some player)
    (hframes : 2 ≤ player.totalFrames)
    (hdelta : player.newerFrame.timestamp ≠ player.olderFrame.timestamp) :
    ∃ player',
      (tick self dt).players playerId = some player' ∧
      player'.timeCounter = player.timeCounter + dt ∧
      player'.interpolatedState =
        lerpPlayer player.olderFrame.visual player.newerFrame.visual player.interpolatedState
          ((player.timeCounter - player.olderFrame.timestamp) / self.settings.expectedDelta) ∧
      player'.olderFrame = player.olderFrame ∧
      player'.newerFrame = player.newerFrame ∧
      player'.totalFrames = player.totalFrames ∧
      player'.updateCounter = player.updateCounter ∧
      player'.pendingDeath = player.pendingDeath ∧
      player'.lastDeathTimestamp = player.lastDeathTimestamp := by
  have hstep := tickPlayer_interpolates self.settings dt player hframes hdelta
  refine ⟨(tickPlayer self.settings dt player).player, ?_, ?_⟩
  · rw [tick_buffered self dt playerId hmode, htracked]
    rfl
  · rw [hstep]
    exact ⟨rfl, rfl, rfl, rfl, rfl, rfl, rfl, rfl⟩

/-- C18 applied to a player half a nominal delta after its older sample. -/
theorem C18_tick_advances_timeCounter_witness :
    (singleInterpolator bufferedSettings 7 movingPlayer).settings.realtime = false ∧
    (singleInterpolator bufferedSettings 7 movingPlayer).players 7 = some movingPlayer ∧
    2 ≤ movingPlayer.totalFrames ∧
    movingPlayer.newerFrame.timestamp ≠ movingPlayer.olderFrame.timestamp ∧
    ∃ player',
      (tick (singleInterpolator bufferedSettings 7 movingPlayer) (1 / 60)).players 7 =
        some player' ∧
      player'.timeCounter = 31 / 30 ∧
      player'.totalFrames = 2 := by
  have htracked : (singleInterpolator bufferedSettings 7 movingPlayer).players 7 =
      some movingPlayer := by simp [singleInterpolator]
  have hdelta : movingPlayer.newerFrame.timestamp ≠ movingPlayer.olderFrame.timestamp := by
    norm_num [movingPlayer, LerpFrame.ofPlayerData, sampleAt]
  have hframes : 2 ≤ movingPlayer.totalFrames := by decide
  obtain ⟨player', hget, htime, _, _, _, htotal, _⟩ :=
    C18_tick_advances_timeCounter (singleInterpolator bufferedSettings 7 movingPlayer) (1 / 60) 7
      movingPlayer rfl htracked hframes hdelta
  refine ⟨rfl, htracked, hframes, hdelta, player', hget, ?_, ?_⟩
  · rw [htime]
    norm_num [movingPlayer]
  · rw [htotal]
    rfl

/-- C19: `tick` treats players independently.  The state of a player after `tick(dt)` is
determined by the player's own state before the tick, the settings and `dt`: two
interpolators with the same settings that agree on the player agree on it after the tick,
whatever other players they track.  Run entry by entry in any iteration order that visits
every tracked player once, the loop reaches the same map, so an iteration that is skipped
never stops the loop. -/
theorem C19_tick_players_independent (dt : ℚ) (playerId : Nat) :
    (∀ a b : PlayerInterpolator, a.settings = b.settings →
      a.players playerId = b.players playerId →
      (tick a dt).players playerId = (tick b dt).players playerId) ∧
    (∀ self : PlayerInterpolator, self.settings.realtime = false →
      (tick self dt).players playerId =
        (self.players playerId).map
          (fun player => (tickPlayer self.settings dt player).player)) ∧
    (∀ (self : PlayerInterpolator) (order : List Nat), self.settings.realtime = false →
      order.Nodup → (∀ id, self.players id ≠ none → id ∈ order) →
      tickLoop self.settings dt order self.players = (tick self dt).players) := by
  refine ⟨?_, ?_, ?_⟩
  · intro a b hsettings hplayer
    cases hmode : a.settings.realtime with
    | true =>
      rw [tick_realtime a dt hmode, tick_realtime b dt (hsettings ▸ hmode)]
      exact hplayer
    | false =>
      rw [tick_buffered a dt playerId hmode, tick_buffered b dt playerId (hsettings ▸ hmode),
        hplayer, hsettings]
  · intro self hmode
    exact tick_buffered self dt playerId hmode
  · intro self order hmode hnodup hcover
    funext id
    rw [tickLoop_apply self.settings dt order hnodup, tick_buffered self dt id hmode]
    by_cases hin : id ∈ order
    · rw [if_pos hin]
    · rw [if_neg hin]
      have habsent : self.players id = none := by
        by_contra hsome
        exact hin (hcover id hsome)
      rw [habsent]
      rfl

/-- C19 applied to player 7 alone and next to the skipped player 8: the tick gives player 7
the same state in both. -/
theorem C19_tick_players_independent_witness :
    (singleInterpolator bufferedSettings 7 movingPlayer).settings = twoPlayers.settings ∧
    (singleInterpolator bufferedSettings 7 movingPlayer).players 7 = twoPlayers.players 7 ∧
    (tick (singleInterpolator bufferedSettings 7 movingPlayer) (1 / 60)).players 7 =
      (tick twoPlayers (1 / 60)).players 7 ∧
    (twoPlayers.settings.realtime = false ∧ [8, 7].Nodup ∧
      (∀ id, twoPlayers.players id ≠ none → id ∈ [8, 7]) ∧
      tickLoop twoPlayers.settings (1 / 60) [8, 7] twoPlayers.players =
        (tick twoPlayers (1 / 60)).players) := by
  have hagree : (singleInterpolator bufferedSettings 7 movingPlayer).players 7 =
      twoPlayers.players 7 := by
    simp [singleInterpolator, twoPlayers, Function.update]
  have hcover : ∀ id, twoPlayers.players id ≠ none → id ∈ [8, 7] := by
    intro id hsome
    by_cases h8 : id = 8
    · simp [h8]
    · by_cases h7 : id = 7
      · simp [h7]
      · exact absurd (by simp [twoPlayers, Function.update, h8, h7]) hsome
  have hnodup : [8, 7].Nodup := by decide
  exact ⟨rfl, hagree,
    (C19_tick_players_independent (1 / 60) 7).1 _ _ rfl hagree,
    rfl, hnodup, hcover,
    (C19_tick_players_independent (1 / 60) 7).2.2 twoPlayers [8, 7] rfl hnodup hcover⟩

/-! ## Component-wise interpolation of positions -/

/-- C20 (as stated) fails at a vertical displacement of exactly 33: the displacement does
not exceed 33, yet for a spider the vertical component is not interpolated. -/
theorem C20_lerpSpecific_blend_counterexample :
    ¬ (|(iconAt 0 0 0 PlayerIconType.Spider).position.y -
        (iconAt 10 33 0 PlayerIconType.Spider).position.y| > 33) ∧
    (lerpSpecific (iconAt 0 0 0 PlayerIconType.Spider) (iconAt 10 33 0 PlayerIconType.Spider)
        SpecificIconData.zero (1 / 2)).position = { x := 5, y := 0 } ∧
    (iconAt 0 0 0 PlayerIconType.Spider).position.lerp
        (iconAt 10 33 0 PlayerIconType.Spider).position (1 / 2) = { x := 5, y := 33 / 2 } ∧
    (lerpSpecific (iconAt 0 0 0 PlayerIconType.Spider) (iconAt 10 33 0 PlayerIconType.Spider)
        SpecificIconData.zero (1 / 2)).position ≠
      (iconAt 0 0 0 PlayerIconType.Spider).position.lerp
        (iconAt 10 33 0 PlayerIconType.Spider).position (1 / 2) := by
  have hsnap : (iconAt 0 0 0 PlayerIconType.Spider).iconType = PlayerIconType.Spider ∧
      |(iconAt 0 0 0 PlayerIconType.Spider).position.y -
        (iconAt 10 33 0 PlayerIconType.Spider).position.y| ≥ 33 := by
    refine ⟨rfl, ?_⟩
    norm_num [iconAt]
  rw [lerpSpecific_position_snap _ _ _ _ hsnap]
  refine ⟨?_, ?_, ?_, ?_⟩
  · norm_num [iconAt]
  · norm_num [iconAt, stdLerp]
  · norm_num [iconAt, CCPoint.lerp]
  · norm_num [iconAt, stdLerp, CCPoint.lerp]

/-- C20 (amended): for every older and newer icon sample and ratio `r` such that the older
`iconType` is not `Spider`, or the vertical displacement
`|older.position.y - newer.position.y|` is below 33, `lerpSpecific` outputs
`position = older.position.lerp(newer.position, r)`: both `x` and `y` are interpolated by
`r`. -/
theorem C20_lerpSpecific_blend (older newer out : SpecificIconData) (lerpRatio : ℚ)
    (hcase : older.iconType ≠ PlayerIconType.Spider ∨
      |older.position.y - newer.position.y| < 33) :
    (lerpSpecific older newer out lerpRatio).position =
        older.position.lerp newer.position lerpRatio ∧
      (lerpSpecific older newer out lerpRatio).position.x =
        older.position.x * (1 - lerpRatio) + newer.position.x * lerpRatio ∧
      (lerpSpecific older newer out lerpRatio).position.y =
        older.position.y * (1 - lerpRatio) + newer.position.y * lerpRatio := by
  have hblend : ¬ (older.iconType = PlayerIconType.Spider ∧
      |older.position.y - newer.position.y| ≥ 33) := by
    rintro ⟨hspider, hjump⟩
    rcases hcase with hother | hsmall
    · exact hother hspider
    · exact absurd hsmall (not_lt.mpr hjump)
  rw [lerpSpecific_position_blend older newer out lerpRatio hblend]
  exact ⟨rfl, rfl, rfl⟩

/-- C20 (amended) applied to a cube that jumps 40 units and to a spider that moves 20. -/
theorem C20_lerpSpecific_blend_witness :
    ((iconAt 0 0 0 PlayerIconType.Cube).iconType ≠ PlayerIconType.Spider ∧
      (lerpSpecific (iconAt 0 0 0 PlayerIconType.Cube) (iconAt 10 40 0 PlayerIconType.Cube)
        SpecificIconData.zero (1 / 2)).position =
      (iconAt 0 0 0 PlayerIconType.Cube).position.lerp
        (iconAt 10 40 0 PlayerIconType.Cube).position (1 / 2)) ∧
    (|(iconAt 0 0 0 PlayerIconType.Spider).position.y -
        (iconAt 10 20 0 PlayerIconType.Spider).position.y| < 33 ∧
      (lerpSpecific (iconAt 0 0 0 PlayerIconType.Spider) (iconAt 10 20 0 PlayerIconType.Spider)
        SpecificIconData.zero (1 / 2)).position =
      (iconAt 0 0 0 PlayerIconType.Spider).position.lerp
        (iconAt 10 20 0 PlayerIconType.Spider).position (1 / 2)) :=
  ⟨⟨by decide,
      (C20_lerpSpecific_blend (iconAt 0 0 0 PlayerIconType.Cube)
        (iconAt 10 40 0 PlayerIconType.Cube) SpecificIconData.zero (1 / 2)
        (Or.inl (by decide))).1⟩,
    ⟨by norm_num [iconAt],
      (C20_lerpSpecific_blend (iconAt 0 0 0 PlayerIconType.Spider)
        (iconAt 10 20 0 PlayerIconType.Spider) SpecificIconData.zero (1 / 2)
        (Or.inr (by norm_num [iconAt]))).1⟩⟩

/-! ## Round trips of the wire primitives -/

namespace Wire

theorem byteOf_val (n : Nat) : (byteOf n).val = n % 256 := rfl

theorem readU16_writeU16 (n : Nat) (hn : n < 65536) (rest : List Byte) :
    readU16 (writeU16 n ++ rest) = some (n, rest) := by
  simp only [writeU16, readU16, List.cons_append, List.nil_append, byteOf_val]
  congr 2
  omega

theorem readU32_writeU32 (n : Nat) (hn : n < 4294967296) (rest : List Byte) :
    readU32 (writeU32 n ++ rest) = some (n, rest) := by
  simp only [writeU32, readU32, List.cons_append, List.nil_append, byteOf_val]
  congr 2
  omega

theorem readI64_writeI64 (z : Int) (hlow : -9223372036854775808 ≤ z)
    (hhigh : z < 9223372036854775808) (rest : List Byte) :
    readI64 (writeI64 z ++ rest) = some (z, rest) := by
  have hmod : 0 ≤ z % 18446744073709551616 := Int.emod_nonneg z (by norm_num)
  have hlt : z % 18446744073709551616 < 18446744073709551616 := Int.emod_lt_of_pos z (by norm_num)
  have hnat : ((z % 18446744073709551616).toNat : Int) = z % 18446744073709551616 :=
    Int.toNat_of_nonneg hmod
  have hbound : (z % 18446744073709551616).toNat < 18446744073709551616 := by omega
  unfold readI64 writeI64
  rw [List.append_assoc,
    readU32_writeU32 _ (Nat.div_lt_of_lt_mul (by omega)) _]
  simp only []
  rw [readU32_writeU32 _ (Nat.mod_lt _ (by norm_num)) rest]
  simp only []
  congr 2
  have hraw : (z % 18446744073709551616).toNat / 4294967296 * 4294967296 +
      (z % 18446744073709551616).toNat % 4294967296 = (z % 18446744073709551616).toNat :=
    Nat.div_add_mod' _ _
  rw [hraw]
  split_ifs with hsmall <;> omega

theorem readBytes_writeBytes (data : List Byte) (hlength : data.length < 4294967296)
    (rest : List Byte) :
    readBytes (writeBytes data ++ rest) = some (data, rest) := by
  unfold readBytes writeBytes
  rw [List.append_assoc, readU32_writeU32 _ hlength]
  simp

theorem readFixed_writeFixed (data : List Byte) (rest : List Byte) :
    readFixed data.length (writeFixed data ++ rest) = some (data, rest) := by
  simp [readFixed, writeFixed]

theorem readMany_writeMany {α : Type} (codec : Codec α) (hcodec : codec.RoundTrips)
    (values : List α) (rest : List Byte) :
    readMany codec.read values.length (writeMany codec.write values ++ rest) =
      some (values, rest) := by
  induction values with
  | nil => simp [readMany, writeMany]
  | cons value values ih =>
    simp only [List.length_cons, readMany, writeMany, List.append_assoc]
    rw [hcodec value]
    simp only []
    rw [ih]

theorem readList_writeList {α : Type} (codec : Codec α) (hcodec : codec.RoundTrips)
    (values : List α) (hlength : values.length < 4294967296) (rest : List Byte) :
    readList codec (writeList codec values ++ rest) = some (values, rest) := by
  unfold readList writeList
  rw [List.append_assoc, readU32_writeU32 _ hlength]
  exact readMany_writeMany codec hcodec values rest

theorem readU16_writeU16_end (n : Nat) (hn : n < 65536) :
    readU16 (writeU16 n) = some (n, []) := by
  simpa using readU16_writeU16 n hn []

theorem readU32_writeU32_end (n : Nat) (hn : n < 4294967296) :
    readU32 (writeU32 n) = some (n, []) := by
  simpa using readU32_writeU32 n hn []

theorem readI64_writeI64_end (z : Int) (hlow : -9223372036854775808 ≤ z)
    (hhigh : z < 9223372036854775808) :
    readI64 (writeI64 z) = some (z, []) := by
  simpa using readI64_writeI64 z hlow hhigh []

theorem readBytes_writeBytes_end (data : List Byte) (hlength : data.length < 4294967296) :
    readBytes (writeBytes data) = some (data, []) := by
  simpa using readBytes_writeBytes data hlength []

theorem readFixed_writeFixed_end (data : List Byte) :
    readFixed data.length (writeFixed data) = some (data, []) := by
  simpa using readFixed_writeFixed data []

theorem emptyCodec_roundTrips : emptyCodec.RoundTrips := by
  intro value rest
  rfl

theorem byteCodec_roundTrips : byteCodec.RoundTrips := by
  intro value rest
  rfl

end Wire

/-! ## The packet table and the round trip -/

/-- C14 (as stated) fails on the packet 20001: its serialized field list is `[data]`, the
catalogue's field list is `[publicKey]`. -/
theorem C14_packet_table_counterexample :
    serializedFields 20001 = ["data"] ∧
    catalogueFields 20001 = ["publicKey"] ∧
    serializedFields 20001 ≠ catalogueFields 20001 := by
  decide

/-- C14 (amended): `connection.hpp` declares thirteen packet classes with exactly the ids
20000..20012, pairwise distinct and inside the band 20000-20999, named as the catalogue's
rows with the suffix `Packet`.  Every class serializes its data members in declaration
order, and its field list agrees with the catalogue's row position by position in number
and type of the fields.  The field names agree too for every id except 20001, whose single
field is called `data` in the header and `publicKey` in the catalogue. -/
theorem C14_packet_table_matches_catalogue :
    serverConnectionPackets.length = 13 ∧
    serverConnectionPackets.map (fun decl => decl.id) = List.range' 20000 13 ∧
    (serverConnectionPackets.map (fun decl => decl.id)).Nodup ∧
    (∀ decl ∈ serverConnectionPackets, 20000 ≤ decl.id ∧ decl.id ≤ 20999) ∧
    wireCatalogue.map (fun row => row.id) = serverConnectionPackets.map (fun decl => decl.id) ∧
    serverConnectionPackets.map (fun decl => decl.name) =
      wireCatalogue.map (fun row => row.name ++ "Packet") ∧
    (∀ decl ∈ serverConnectionPackets, decl.serialized = decl.members.map Prod.fst) ∧
    serverConnectionPackets.map
        (fun decl => decl.members.map (fun member => member.2.catalogueType)) =
      wireCatalogue.map (fun row => row.fields.map Prod.snd) ∧
    (∀ decl ∈ serverConnectionPackets, decl.id ≠ 20001 →
      serializedFields decl.id = catalogueFields decl.id) ∧
    (serializedFields 20001 = ["data"] ∧ catalogueFields 20001 = ["publicKey"]) ∧
    (serializedFields 20000 = ["id", "playerCount"] ∧
      serializedFields 20004 = ["tps", "specialUserData", "allRoles", "secretKey"] ∧
      serializedFields 20008 = [] ∧ serializedFields 20009 = [] ∧
      serializedFields 20010 = ["uid", "data"] ∧
      serializedFields 20011 = ["message", "timestamp"] ∧
      serializedFields 20012 = ["reason", "timestamp"]) := by
  decide

/-- C14 (amended) applied to the declaration of `LoggedInPacket`. -/
theorem C14_packet_table_matches_catalogue_witness :
    serializedFields 20004 = catalogueFields 20004 :=
  C14_packet_table_matches_catalogue.2.2.2.2.2.2.2.2.1
    { id := 20004, name := "LoggedInPacket", encrypted := false, tcp := false
      members := [("tps", CppType.uint32_t), ("specialUserData", CppType.SpecialUserData),
        ("allRoles", CppType.vector_GameServerRole), ("secretKey", CppType.uint32_t)]
      serialized := ["tps", "specialUserData", "allRoles", "secretKey"] }
    (by decide) (by decide)

/-- C15: for every one of the thirteen server connection packet types and every validly
constructed instance `p` of it, `decode(id of p, encode(p))` succeeds and returns `p`; the
nested structures `SpecialUserData` and `GameServerRole` are assumed to have codecs that
round-trip. -/
theorem C15_decode_encode_roundtrip {S R : Type} (config : Wire.Config S R)
    (hspecial : config.specialUserData.RoundTrips)
    (hrole : config.gameServerRole.RoundTrips)
    (packet : Wire.ServerPacket S R) (hvalid : packet.Valid config) :
    Wire.decode config packet.packetId (Wire.encode config packet) = Except.ok packet ∧
      packet.packetId ∈ serverConnectionPackets.map (fun decl => decl.id) := by
  cases packet with
  | PingResponse id playerCount =>
    obtain ⟨hid, hcount⟩ := hvalid
    refine ⟨?_, by simp only [Wire.ServerPacket.packetId]; decide⟩
    simp [Wire.decode, Wire.encode, Wire.ServerPacket.packetId, Wire.finish,
      Wire.readU32_writeU32 _ hid, Wire.readU32_writeU32_end _ hcount]
  | CryptoHandshakeResponse data =>
    have hsize : data.length = config.keySize := hvalid
    refine ⟨?_, by simp only [Wire.ServerPacket.packetId]; decide⟩
    simp [Wire.decode, Wire.encode, Wire.ServerPacket.packetId, Wire.finish, ← hsize,
      Wire.readFixed_writeFixed_end]
  | KeepaliveResponse playerCount =>
    have hcount : playerCount < 4294967296 := hvalid
    refine ⟨?_, by simp only [Wire.ServerPacket.packetId]; decide⟩
    simp [Wire.decode, Wire.encode, Wire.ServerPacket.packetId, Wire.finish,
      Wire.readU32_writeU32_end _ hcount]
  | ServerDisconnect message =>
    have hlength : message.length < 4294967296 := hvalid
    refine ⟨?_, by simp only [Wire.ServerPacket.packetId]; decide⟩
    simp [Wire.decode, Wire.encode, Wire.ServerPacket.packetId, Wire.finish,
      Wire.readBytes_writeBytes_end _ hlength]
  | LoggedIn tps specialUserData allRoles secretKey =>
    obtain ⟨htps, hroles, hkey⟩ := hvalid
    refine ⟨?_, by simp only [Wire.ServerPacket.packetId]; decide⟩
    simp [Wire.decode, Wire.encode, Wire.ServerPacket.packetId, Wire.finish,
      Wire.readU32_writeU32 _ htps, hspecial specialUserData,
      Wire.readList_writeList _ hrole _ hroles, Wire.readU32_writeU32_end _ hkey]
  | LoginFailed message =>
    have hlength : message.length < 4294967296 := hvalid
    refine ⟨?_, by simp only [Wire.ServerPacket.packetId]; decide⟩
    simp [Wire.decode, Wire.encode, Wire.ServerPacket.packetId, Wire.finish,
      Wire.readBytes_writeBytes_end _ hlength]
  | ServerNotice message =>
    have hlength : message.length < 4294967296 := hvalid
    refine ⟨?_, by simp only [Wire.ServerPacket.packetId]; decide⟩
    simp [Wire.decode, Wire.encode, Wire.ServerPacket.packetId, Wire.finish,
      Wire.readBytes_writeBytes_end _ hlength]
  | ProtocolMismatch serverProtocol =>
    have hprotocol : serverProtocol < 65536 := hvalid
    refine ⟨?_, by simp only [Wire.ServerPacket.packetId]; decide⟩
    simp [Wire.decode, Wire.encode, Wire.ServerPacket.packetId, Wire.finish,
      Wire.readU16_writeU16_end _ hprotocol]
  | KeepaliveTCPResponse =>
    refine ⟨?_, by simp only [Wire.ServerPacket.packetId]; decide⟩
    simp [Wire.decode, Wire.encode, Wire.ServerPacket.packetId]
  | ClaimThreadFailed =>
    refine ⟨?_, by simp only [Wire.ServerPacket.packetId]; decide⟩
    simp [Wire.decode, Wire.encode, Wire.ServerPacket.packetId]
  | ConnectionTestResponse uid data =>
    obtain ⟨huid, hlength⟩ := hvalid
    refine ⟨?_, by simp only [Wire.ServerPacket.packetId]; decide⟩
    simp [Wire.decode, Wire.encode, Wire.ServerPacket.packetId, Wire.finish,
      Wire.readU32_writeU32 _ huid, Wire.readBytes_writeBytes_end _ hlength]
  | ServerBanned message timestamp =>
    obtain ⟨hlength, hlow, hhigh⟩ := hvalid
    refine ⟨?_, by simp only [Wire.ServerPacket.packetId]; decide⟩
    simp [Wire.decode, Wire.encode, Wire.ServerPacket.packetId, Wire.finish,
      Wire.readBytes_writeBytes _ hlength, Wire.readI64_writeI64_end _ hlow hhigh]
  | ServerMuted reason timestamp =>
    obtain ⟨hlength, hlow, hhigh⟩ := hvalid
    refine ⟨?_, by simp only [Wire.ServerPacket.packetId]; decide⟩
    simp [Wire.decode, Wire.encode, Wire.ServerPacket.packetId, Wire.finish,
      Wire.readBytes_writeBytes _ hlength, Wire.readI64_writeI64_end _ hlow hhigh]

/-- C15 applied to `LoggedIn{tps = 30, two roles, secretKey = 7}` and to
`ServerBanned{message of three bytes, 1700000000}`. -/
theorem C15_decode_encode_roundtrip_witness :
    (Wire.sampleConfig.specialUserData.RoundTrips ∧ Wire.sampleConfig.gameServerRole.RoundTrips) ∧
    ((Wire.ServerPacket.LoggedIn 30 () [1, 2] 7 : Wire.ServerPacket Unit Wire.Byte).Valid
        Wire.sampleConfig ∧
      Wire.decode Wire.sampleConfig 20004
        (Wire.encode Wire.sampleConfig (Wire.ServerPacket.LoggedIn 30 () [1, 2] 7)) =
        Except.ok (Wire.ServerPacket.LoggedIn 30 () [1, 2] 7)) ∧
    ((Wire.ServerPacket.ServerBanned [99, 104, 116] 1700000000 :
        Wire.ServerPacket Unit Wire.Byte).Valid Wire.sampleConfig ∧
      Wire.decode Wire.sampleConfig 20011
        (Wire.encode Wire.sampleConfig (Wire.ServerPacket.ServerBanned [99, 104, 116] 1700000000)) =
        Except.ok (Wire.ServerPacket.ServerBanned [99, 104, 116] 1700000000)) := by
  have hloggedIn : (Wire.ServerPacket.LoggedIn 30 () [1, 2] 7 :
      Wire.ServerPacket Unit Wire.Byte).Valid Wire.sampleConfig := by
    simp [Wire.ServerPacket.Valid]
  have hbanned : (Wire.ServerPacket.ServerBanned [99, 104, 116] 1700000000 :
      Wire.ServerPacket Unit Wire.Byte).Valid Wire.sampleConfig := by
    simp [Wire.ServerPacket.Valid]
  exact ⟨⟨Wire.emptyCodec_roundTrips, Wire.byteCodec_roundTrips⟩,
    ⟨hloggedIn,
      (C15_decode_encode_roundtrip Wire.sampleConfig Wire.emptyCodec_roundTrips
        Wire.byteCodec_roundTrips _ hloggedIn).1⟩,
    ⟨hbanned,
      (C15_decode_encode_roundtrip Wire.sampleConfig Wire.emptyCodec_roundTrips
        Wire.byteCodec_roundTrips _ hbanned).1⟩⟩

/-! ## Realtime ticks, discrete fields and the accumulated ratio -/

namespace PlayerInterpolator

theorem tick_settings (self : PlayerInterpolator) (dt : ℚ) :
    (tick self dt).settings = self.settings := by
  unfold tick
  split_ifs <;> rfl

theorem tickMany_settings (self : PlayerInterpolator) (deltas : List ℚ) :
    (tickMany self deltas).settings = self.settings := by
  induction deltas generalizing self with
  | nil => rfl
  | cons dt rest ih =>
    show (tickMany (tick self dt) rest).settings = self.settings
    rw [ih, tick_settings]

theorem tickMany_realtime (self : PlayerInterpolator) (deltas : List ℚ)
    (hmode : self.settings.realtime = true) : tickMany self deltas = self := by
  induction deltas with
  | nil => rfl
  | cons dt rest ih =>
    show tickMany (tick self dt) rest = self
    rw [tick_realtime self dt hmode]
    exact ih

theorem tickMany_buffered (self : PlayerInterpolator) (deltas : List ℚ) (playerId : Nat)
    (hmode : self.settings.realtime = false) :
    (tickMany self deltas).players playerId =
      (self.players playerId).map (tickPlayerMany self.settings deltas) := by
  induction deltas generalizing self with
  | nil =>
    cases hentry : self.players playerId <;> simp [tickMany, tickPlayerMany, hentry]
  | cons dt rest ih =>
    show (tickMany (tick self dt) rest).players playerId = _
    rw [ih (tick self dt) (by rw [tick_settings]; exact hmode), tick_buffered self dt playerId hmode,
      tick_settings]
    cases self.players playerId <;> rfl

theorem tickPlayerMany_interpolated (settings : InterpolatorSettings) (deltas : List ℚ)
    (player : PlayerState) (hframes : 2 ≤ player.totalFrames)
    (hdelta : player.newerFrame.timestamp ≠ player.olderFrame.timestamp) :
    (tickPlayerMany settings deltas player).olderFrame = player.olderFrame ∧
      (tickPlayerMany settings deltas player).newerFrame = player.newerFrame ∧
      (tickPlayerMany settings deltas player).totalFrames = player.totalFrames ∧
      (tickPlayerMany settings deltas player).timeCounter = player.timeCounter + deltas.sum := by
  induction deltas generalizing player with
  | nil => simp [tickPlayerMany]
  | cons dt rest ih =>
    have hstep := tickPlayer_interpolates settings dt player hframes hdelta
    have hunfold : tickPlayerMany settings (dt :: rest) player =
        tickPlayerMany settings rest (tickPlayer settings dt player).player := rfl
    rw [hunfold, hstep]
    obtain ⟨hold, hnew, htotal, htime⟩ := ih
      { player with
        interpolatedState :=
          lerpPlayer player.olderFrame.visual player.newerFrame.visual player.interpolatedState
            ((player.timeCounter - player.olderFrame.timestamp) / settings.expectedDelta)
        timeCounter := player.timeCounter + dt } hframes hdelta
    refine ⟨hold, hnew, htotal, ?_⟩
    rw [htime, List.sum_cons]
    ring

end PlayerInterpolator

theorem lerpSpecific_ratio_zero (older newer out : SpecificIconData) :
    (lerpSpecific older newer out 0).position = older.position ∧
      (lerpSpecific older newer out 0).rotation = older.rotation := by
  constructor
  · by_cases hsnap : older.iconType = PlayerIconType.Spider ∧
        |older.position.y - newer.position.y| ≥ 33
    · rw [lerpSpecific_position_snap _ _ _ _ hsnap]
      simp [stdLerp]
    · rw [lerpSpecific_position_blend _ _ _ _ hsnap]
      simp [CCPoint.lerp]
  · rw [lerpSpecific_rotation]
    simp [stdLerp]

/-- C22: in realtime mode `tick` is a no-op: for every player map and every `dt`,
`tick(dt)` returns the interpolator unchanged, so every player keeps its whole state; and
after `updatePlayer(id, sample, c)`, whatever ticks follow, `getPlayerState(id)` returns the
pose of that sample. -/
theorem C22_tick_realtime_noop (errorMargin : ℚ) (self : PlayerInterpolator)
    (hmode : self.settings.realtime = true) :
    (∀ dt : ℚ, tick self dt = self) ∧
    (∀ (dt : ℚ) (playerId : Nat), tickDivisions self dt playerId = []) ∧
    (∀ (playerId : Nat) (player : PlayerState) (data : PlayerData) (updateCounter : ℚ)
        (deltas : List ℚ),
      self.players playerId = some player →
      ∃ self', updatePlayer errorMargin self playerId data updateCounter = Except.ok self' ∧
        getPlayerState (tickMany self' deltas) playerId =
          Except.ok { player1 := data.player1, player2 := data.player2 }) := by
  refine ⟨fun dt => tick_realtime self dt hmode, ?_, ?_⟩
  · intro dt playerId
    simp [tickDivisions, hmode]
  · intro playerId player data updateCounter deltas htracked
    refine ⟨_, updatePlayer_tracked errorMargin self playerId player data updateCounter htracked,
      ?_⟩
    have hnoop := tickMany_realtime
      { self with
        players := Function.update self.players playerId
          (some (updatePlayerState errorMargin self.settings data updateCounter player)) }
      deltas hmode
    rw [hnoop]
    simp [getPlayerState,
      (updatePlayerState_realtime errorMargin self.settings data updateCounter player hmode).1]

/-- C22 applied to a realtime interpolator: a sample followed by two ticks. -/
theorem C22_tick_realtime_noop_witness :
    (singleInterpolator realtimeSettings 7 movingPlayer).settings.realtime = true ∧
    (singleInterpolator realtimeSettings 7 movingPlayer).players 7 = some movingPlayer ∧
    tick (singleInterpolator realtimeSettings 7 movingPlayer) (1 / 60) =
      singleInterpolator realtimeSettings 7 movingPlayer ∧
    ∃ self',
      updatePlayer (1 / 500) (singleInterpolator realtimeSettings 7 movingPlayer) 7
        (sampleAt 2 20 5 0) 42 = Except.ok self' ∧
      getPlayerState (tickMany self' [1 / 60, 1 / 60]) 7 =
        Except.ok { player1 := (sampleAt 2 20 5 0).player1, player2 := (sampleAt 2 20 5 0).player2 } :=
  ⟨rfl, by simp [singleInterpolator],
    (C22_tick_realtime_noop (1 / 500) (singleInterpolator realtimeSettings 7 movingPlayer) rfl).1
      (1 / 60),
    (C22_tick_realtime_noop (1 / 500) (singleInterpolator realtimeSettings 7 movingPlayer) rfl).2.2
      7 movingPlayer (sampleAt 2 20 5 0) 42 [1 / 60, 1 / 60] (by simp [singleInterpolator])⟩

/-- C23: the discrete part of an interpolated pose is never blended: for every older and
newer icon sample, every previous content of the output and every ratio `r` (also
`r >= 1`), `lerpSpecific` outputs `iconType`, `isDashing`, `isLookingLeft`, `isUpsideDown`,
`isVisible` and `isMini` equal to the older sample's values. -/
theorem C23_lerpSpecific_discrete_from_older (older newer out : SpecificIconData)
    (lerpRatio : ℚ) :
    (lerpSpecific older newer out lerpRatio).iconType = older.iconType ∧
    (lerpSpecific older newer out lerpRatio).isDashing = older.isDashing ∧
    (lerpSpecific older newer out lerpRatio).isLookingLeft = older.isLookingLeft ∧
    (lerpSpecific older newer out lerpRatio).isUpsideDown = older.isUpsideDown ∧
    (lerpSpecific older newer out lerpRatio).isVisible = older.isVisible ∧
    (lerpSpecific older newer out lerpRatio).isMini = older.isMini := by
  unfold lerpSpecific
  simp only []
  split_ifs <;> exact ⟨rfl, rfl, rfl, rfl, rfl, rfl⟩

/-- C24: the lerp ratio accumulates without clamping.  In non-realtime mode, take a tracked
player and a sample after which `totalFrames >= 2` and the measured frame delta is non-zero.
After `updatePlayer` followed by `k` ticks with deltas `dt_1..dt_k` and no further
`updatePlayer`, the frames are still the ones set by the update and `timeCounter` is
`olderFrame.timestamp + (dt_1 + ... + dt_k)`; the next tick divides `dt_1 + ... + dt_k` by
`settings.expectedDelta` and interpolates with that ratio (for `k = 0` the ratio is 0 and the
pose has the older frame's position and rotation); the ratio exceeds 1 as soon as the
accumulated time exceeds a positive `expectedDelta`. -/
theorem C24_lerp_ratio_accumulates (errorMargin : ℚ) (self : PlayerInterpolator)
    (playerId : Nat) (player : PlayerState) (data : PlayerData) (updateCounter : ℚ)
    (deltas : List ℚ)
    (hmode : self.settings.realtime = false)
    (htracked : self.players playerId = some player)
    (hframes : 1 ≤ player.totalFrames)
    (hdelta : data.timestamp ≠ player.newerFrame.timestamp) :
    ∃ self1,
      updatePlayer errorMargin self playerId data updateCounter = Except.ok self1 ∧
      (∃ playerK,
        (tickMany self1 deltas).players playerId = some playerK ∧
        2 ≤ playerK.totalFrames ∧
        playerK.olderFrame = player.newerFrame ∧
        playerK.newerFrame = LerpFrame.ofPlayerData data ∧
        playerK.timeCounter = playerK.olderFrame.timestamp + deltas.sum ∧
        ∀ dt : ℚ,
          tickDivisions (tickMany self1 deltas) dt playerId =
            [(deltas.sum, self.settings.expectedDelta)] ∧
          ∃ playerNext,
            (tick (tickMany self1 deltas) dt).players playerId = some playerNext ∧
            playerNext.interpolatedState =
              lerpPlayer playerK.olderFrame.visual playerK.newerFrame.visual
                playerK.interpolatedState (deltas.sum / self.settings.expectedDelta)) ∧
      (∀ dt : ℚ, ∃ first,
        (tick self1 dt).players playerId = some first ∧
        first.interpolatedState.player1.position = player.newerFrame.visual.player1.position ∧
        first.interpolatedState.player1.rotation = player.newerFrame.visual.player1.rotation ∧
        first.interpolatedState.player2.position = player.newerFrame.visual.player2.position ∧
        first.interpolatedState.player2.rotation = player.newerFrame.visual.player2.rotation) ∧
      (0 < self.settings.expectedDelta → self.settings.expectedDelta < deltas.sum →
        1 < deltas.sum / self.settings.expectedDelta) := by
  obtain ⟨hnew, hold, htime, _⟩ :=
    updatePlayerState_buffered errorMargin self.settings data updateCounter player hmode
  have htotal := updatePlayerState_totalFrames errorMargin self.settings data updateCounter player
  generalize hsampled :
    updatePlayerState errorMargin self.settings data updateCounter player = sampled
    at hnew hold htime htotal
  have hframes1 : 2 ≤ sampled.totalFrames := by omega
  have hdelta1 : sampled.newerFrame.timestamp ≠ sampled.olderFrame.timestamp := by
    rw [hnew, hold]
    exact hdelta
  have hok : updatePlayer errorMargin self playerId data updateCounter =
      Except.ok { self with players := Function.update self.players playerId (some sampled) } := by
    rw [updatePlayer_tracked errorMargin self playerId player data updateCounter htracked,
      hsampled]
  have hmode1 : ({ self with players := Function.update self.players playerId (some sampled) } :
      PlayerInterpolator).settings.realtime = false := hmode
  have hget1 : ({ self with players := Function.update self.players playerId (some sampled) } :
      PlayerInterpolator).players playerId = some sampled := by simp
  refine ⟨_, hok, ?_, ?_, ?_⟩
  · obtain ⟨holdK, hnewK, htotalK, htimeK⟩ :=
      tickPlayerMany_interpolated self.settings deltas sampled hframes1 hdelta1
    have hgetK : (tickMany { self with
        players := Function.update self.players playerId (some sampled) } deltas).players
          playerId = some (tickPlayerMany self.settings deltas sampled) := by
      rw [tickMany_buffered _ deltas playerId hmode1, hget1]
      rfl
    have hmodeK : (tickMany { self with
        players := Function.update self.players playerId (some sampled) }
          deltas).settings.realtime = false := by
      rw [tickMany_settings]
      exact hmode
    have hsettingsK : (tickMany { self with
        players := Function.update self.players playerId (some sampled) } deltas).settings =
          self.settings := by
      rw [tickMany_settings]
    have hframesK : 2 ≤ (tickPlayerMany self.settings deltas sampled).totalFrames := by
      rw [htotalK]
      exact hframes1
    have hdeltaK : (tickPlayerMany self.settings deltas sampled).newerFrame.timestamp ≠
        (tickPlayerMany self.settings deltas sampled).olderFrame.timestamp := by
      rw [holdK, hnewK]
      exact hdelta1
    have hcounter : (tickPlayerMany self.settings deltas sampled).timeCounter =
        (tickPlayerMany self.settings deltas sampled).olderFrame.timestamp + deltas.sum := by
      rw [htimeK, holdK, htime, hold]
    have hnumerator : (tickPlayerMany self.settings deltas sampled).timeCounter -
        (tickPlayerMany self.settings deltas sampled).olderFrame.timestamp = deltas.sum := by
      rw [hcounter]
      ring
    refine ⟨tickPlayerMany self.settings deltas sampled, hgetK, hframesK, ?_, ?_, hcounter, ?_⟩
    · rw [holdK, hold]
    · rw [hnewK, hnew]
    · intro dt
      have hstep := tickPlayer_interpolates self.settings dt
        (tickPlayerMany self.settings deltas sampled) hframesK hdeltaK
      rw [hnumerator] at hstep
      constructor
      · rw [tickDivisions_buffered _ dt playerId _ hmodeK hgetK, hsettingsK, hstep]
      · refine ⟨(tickPlayer self.settings dt (tickPlayerMany self.settings deltas sampled)).player,
          ?_, ?_⟩
        · rw [tick_buffered _ dt playerId hmodeK, hgetK, hsettingsK]
          rfl
        · rw [hstep]
  · intro dt
    have hstep := tickPlayer_interpolates self.settings dt sampled hframes1 hdelta1
    have hzero : sampled.timeCounter - sampled.olderFrame.timestamp = 0 := by
      rw [htime, hold]
      ring
    rw [hzero, zero_div] at hstep
    refine ⟨(tickPlayer self.settings dt sampled).player, ?_, ?_⟩
    · rw [tick_buffered _ dt playerId hmode1, hget1]
      rfl
    · rw [hstep]
      simp only [lerpPlayer]
      rw [← hold]
      exact ⟨(lerpSpecific_ratio_zero _ _ _).1, (lerpSpecific_ratio_zero _ _ _).2,
        (lerpSpecific_ratio_zero _ _ _).1, (lerpSpecific_ratio_zero _ _ _).2⟩
  · intro hpositive hexceeds
    rw [one_lt_div hpositive]
    exact hexceeds

/-- C24 applied to a player with one earlier sample: after a new sample and the two ticks
`1/30` and `1/30`, the next tick divides `1/15` by the nominal delta `1/30`, a ratio of 2. -/
theorem C24_lerp_ratio_accumulates_witness :
    (singleInterpolator bufferedSettings 7 stalledPlayer).settings.realtime = false ∧
    (singleInterpolator bufferedSettings 7 stalledPlayer).players 7 = some stalledPlayer ∧
    1 ≤ stalledPlayer.totalFrames ∧
    (sampleAt 2 20 0 0).timestamp ≠ stalledPlayer.newerFrame.timestamp ∧
    ∃ self1,
      updatePlayer (1 / 500) (singleInterpolator bufferedSettings 7 stalledPlayer) 7
        (sampleAt 2 20 0 0) 42 = Except.ok self1 ∧
      tickDivisions (tickMany self1 [1 / 30, 1 / 30]) (1 / 60) 7 = [(1 / 15, 1 / 30)] ∧
      (1 : ℚ) < (1 / 15) / (1 / 30) := by
  have htracked : (singleInterpolator bufferedSettings 7 stalledPlayer).players 7 =
      some stalledPlayer := by simp [singleInterpolator]
  have hframes : 1 ≤ stalledPlayer.totalFrames := by decide
  have hdelta : (sampleAt 2 20 0 0).timestamp ≠ stalledPlayer.newerFrame.timestamp := by
    norm_num [stalledPlayer, LerpFrame.ofPlayerData, sampleAt]
  obtain ⟨self1, hok, ⟨playerK, _, _, _, _, _, hnext⟩, _, _⟩ :=
    C24_lerp_ratio_accumulates (1 / 500) (singleInterpolator bufferedSettings 7 stalledPlayer) 7
      stalledPlayer (sampleAt 2 20 0 0) 42 [1 / 30, 1 / 30] rfl htracked hframes hdelta
  refine ⟨rfl, htracked, hframes, hdelta, self1, hok, ?_, by norm_num⟩
  rw [(hnext (1 / 60)).1]
  norm_num [singleInterpolator, bufferedSettings]

/-! ## Resetting the settings -/

namespace GlobedSettings

variable {V : Type}

theorem clear_apply (container : SaveContainer V) (key other : String) :
    clear container key other = if other = key then none else container other := by
  unfold clear
  by_cases hsame : other = key
  · subst hsame
    cases hentry : container other <;> simp [hentry]
  · split_ifs <;> simp [Function.update, hsame]

theorem flagKey_ne_settingKey (setName catName other : String) :
    "_gflag-" ++ setName ≠ "_gsetting-" ++ catName ++ other := by
  intro hsame
  have hdata := congrArg String.data hsame
  simp only [String.data_append] at hdata
  simp at hdata

theorem reflectSettings_toDefault [DecidableEq V] (taskType : TaskType) (catName : String)
    (isFlag : Bool)
    (htask : taskType = TaskType.HardResetSettings ∨
      (taskType = TaskType.ResetSettings ∧ isFlag = false))
    (settings : List (Setting V)) (container : SaveContainer V) :
    reflectSettings taskType catName isFlag settings container =
      (settings.map Setting.toDefault,
        fun key =>
          if key ∈ settings.map (fun setting => settingKey isFlag catName setting.name)
          then none else container key) := by
  induction settings generalizing container with
  | nil => simp [reflectSettings]
  | cons setting rest ih =>
    have hstep : reflectSetting taskType catName isFlag setting container =
        (Setting.toDefault setting,
          clear container (settingKey isFlag catName setting.name)) := by
      rcases htask with hhard | ⟨hsoft, hflag⟩
      · subst hhard
        rfl
      · subst hsoft
        subst hflag
        rfl
    simp only [reflectSettings, hstep, ih, List.map_cons, Prod.mk.injEq, true_and]
    funext key
    rw [clear_apply]
    by_cases hhead : key = settingKey isFlag catName setting.name
    · simp [hhead]
    · simp [hhead]

theorem reflectSettings_reset_flag [DecidableEq V] (catName : String)
    (settings : List (Setting V)) (container : SaveContainer V) :
    reflectSettings TaskType.ResetSettings catName true settings container =
      (settings, container) := by
  induction settings generalizing container with
  | nil => rfl
  | cons setting rest ih =>
    have hstep : reflectSetting TaskType.ResetSettings catName true setting container =
        (setting, container) := rfl
    simp only [reflectSettings, hstep, ih]

theorem reflectCategories_hardReset [DecidableEq V] (categories : List (Category V))
    (container : SaveContainer V) :
    reflectCategories TaskType.HardResetSettings categories container =
      (categories.map
          (fun category => { category with settings := category.settings.map Setting.toDefault }),
        fun key => if key ∈ categories.flatMap categoryKeys then none else container key) := by
  induction categories generalizing container with
  | nil => simp [reflectCategories]
  | cons category rest ih =>
    simp only [reflectCategories, reflectCategory,
      reflectSettings_toDefault TaskType.HardResetSettings _ _ (Or.inl rfl), ih, List.map_cons,
      Prod.mk.injEq, true_and]
    funext key
    by_cases hhead : key ∈ categoryKeys category
    · have hhead' := hhead
      unfold categoryKeys at hhead'
      simp [hhead, hhead']
    · have hhead' := hhead
      unfold categoryKeys at hhead'
      simp [hhead, hhead']

theorem reflectCategories_reset [DecidableEq V] (categories : List (Category V))
    (container : SaveContainer V) :
    reflectCategories TaskType.ResetSettings categories container =
      (categories.map
          (fun category =>
            if category.name = "flags" then category
            else { category with settings := category.settings.map Setting.toDefault }),
        fun key =>
          if key ∈ (categories.filter (fun category => decide (category.name ≠ "flags"))).flatMap
            categoryKeys
          then none else container key) := by
  induction categories generalizing container with
  | nil => simp [reflectCategories]
  | cons category rest ih =>
    obtain ⟨name, settings⟩ := category
    by_cases hflags : name = "flags"
    · subst hflags
      have hfilter :
          List.filter (fun category : Category V => decide (category.name ≠ "flags"))
              ({ name := "flags", settings := settings } :: rest) =
            List.filter (fun category : Category V => decide (category.name ≠ "flags")) rest :=
        List.filter_cons_of_neg (by simp)
      simp only [reflectCategories, reflectCategory, decide_True, reflectSettings_reset_flag, ih,
        List.map_cons, if_true, hfilter]
    · simp only [reflectCategories, reflectCategory, hflags, decide_False,
        reflectSettings_toDefault TaskType.ResetSettings _ false (Or.inr ⟨rfl, rfl⟩), ih,
        List.map_cons, if_false, Prod.mk.injEq, true_and]
      have hfilter :
          List.filter (fun category : Category V => decide (category.name ≠ "flags"))
              ({ name := name, settings := settings } :: rest) =
            { name := name, settings := settings } ::
              List.filter (fun category : Category V => decide (category.name ≠ "flags")) rest :=
        List.filter_cons_of_pos (by simp [hflags])
      funext key
      rw [hfilter, List.flatMap_cons]
      have hkeys : categoryKeys { name := name, settings := settings } =
          List.map (fun setting : Setting V => settingKey false name setting.name) settings := by
        simp [categoryKeys, hflags]
      rw [hkeys]
      generalize List.map (fun setting : Setting V => settingKey false name setting.name)
        settings = headKeys
      generalize (List.filter (fun category : Category V => decide (category.name ≠ "flags"))
        rest).flatMap categoryKeys = restKeys
      by_cases hrest : key ∈ restKeys <;> by_cases hhead : key ∈ headKeys <;>
        simp [hrest, hhead]

end GlobedSettings

/-- C21: flags cannot be cleared unless hard resetting.  `GlobedSettings::reset()` sets every
setting outside the category `flags` to its `Default` and clears its key in the save
container, and leaves every flag's in-memory value and every flag key of the container as
they were.  `GlobedSettings::hardReset()` sets every setting, flags included, to its
`Default` and clears every setting key.  Keys that belong to no reset setting keep their
value. -/
theorem C21_reset_keeps_flags {V : Type} [DecidableEq V] (self : GlobedSettings V) :
    (GlobedSettings.reset self).categories =
      self.categories.map
        (fun category =>
          if category.name = "flags" then category
          else { category with
            settings := category.settings.map GlobedSettings.Setting.toDefault }) ∧
    (∀ category ∈ self.categories, category.name ≠ "flags" → ∀ setting ∈ category.settings,
      (GlobedSettings.reset self).saveContainer
        ("_gsetting-" ++ category.name ++ setting.name) = none) ∧
    (∀ setName : String,
      (GlobedSettings.reset self).saveContainer ("_gflag-" ++ setName) =
        self.saveContainer ("_gflag-" ++ setName)) ∧
    (∀ key : String,
      key ∉ (self.categories.filter
        (fun category => decide (category.name ≠ "flags"))).flatMap
          GlobedSettings.categoryKeys →
      (GlobedSettings.reset self).saveContainer key = self.saveContainer key) ∧
    (GlobedSettings.hardReset self).categories =
      self.categories.map
        (fun category =>
          { category with
            settings := category.settings.map GlobedSettings.Setting.toDefault }) ∧
    (∀ category ∈ self.categories, ∀ setting ∈ category.settings,
      (GlobedSettings.hardReset self).saveContainer
        (GlobedSettings.settingKey (decide (category.name = "flags")) category.name
          setting.name) = none) ∧
    (∀ key : String, key ∉ self.categories.flatMap GlobedSettings.categoryKeys →
      (GlobedSettings.hardReset self).saveContainer key = self.saveContainer key) := by
  have hreset := GlobedSettings.reflectCategories_reset self.categories self.saveContainer
  have hhard := GlobedSettings.reflectCategories_hardReset self.categories self.saveContainer
  have hresetContainer : (GlobedSettings.reset self).saveContainer =
      (GlobedSettings.reflectCategories TaskType.ResetSettings self.categories
        self.saveContainer).2 := rfl
  have hhardContainer : (GlobedSettings.hardReset self).saveContainer =
      (GlobedSettings.reflectCategories TaskType.HardResetSettings self.categories
        self.saveContainer).2 := rfl
  refine ⟨?_, ?_, ?_, ?_, ?_, ?_, ?_⟩
  · show (GlobedSettings.reflectCategories TaskType.ResetSettings self.categories
      self.saveContainer).1 = _
    rw [hreset]
  · intro category hcategory hflags setting hsetting
    rw [hresetContainer, hreset]
    have hmem : "_gsetting-" ++ category.name ++ setting.name ∈
        (self.categories.filter (fun category => decide (category.name ≠ "flags"))).flatMap
          GlobedSettings.categoryKeys := by
      rw [List.mem_flatMap]
      refine ⟨category, List.mem_filter.mpr ⟨hcategory, by simp [hflags]⟩, ?_⟩
      unfold GlobedSettings.categoryKeys
      rw [List.mem_map]
      exact ⟨setting, hsetting, by simp [GlobedSettings.settingKey, hflags]⟩
    simp only []
    rw [if_pos hmem]
  · intro setName
    rw [hresetContainer, hreset]
    have hmem : "_gflag-" ++ setName ∉
        (self.categories.filter (fun category => decide (category.name ≠ "flags"))).flatMap
          GlobedSettings.categoryKeys := by
      rw [List.mem_flatMap]
      rintro ⟨category, hcategory, hkey⟩
      have hflags : category.name ≠ "flags" := by
        simpa using (List.mem_filter.mp hcategory).2
      unfold GlobedSettings.categoryKeys at hkey
      rw [List.mem_map] at hkey
      obtain ⟨setting, _, hsame⟩ := hkey
      simp only [GlobedSettings.settingKey, hflags, decide_False] at hsame
      exact GlobedSettings.flagKey_ne_settingKey setName category.name setting.name
        (by simpa using hsame.symm)
    simp only []
    rw [if_neg hmem]
  · intro key hkey
    rw [hresetContainer, hreset]
    simp only []
    rw [if_neg hkey]
  · show (GlobedSettings.reflectCategories TaskType.HardResetSettings self.categories
      self.saveContainer).1 = _
    rw [hhard]
  · intro category hcategory setting hsetting
    rw [hhardContainer, hhard]
    have hmem : GlobedSettings.settingKey (decide (category.name = "flags")) category.name
        setting.name ∈ self.categories.flatMap GlobedSettings.categoryKeys := by
      rw [List.mem_flatMap]
      refine ⟨category, hcategory, ?_⟩
      unfold GlobedSettings.categoryKeys
      rw [List.mem_map]
      exact ⟨setting, hsetting, rfl⟩
    simp only []
    rw [if_pos hmem]
  · intro key hkey
    rw [hhardContainer, hhard]
    simp only []
    rw [if_neg hkey]

/-- C21 applied to a tree with two ordinary settings and one flag: `reset` clears the key of
an ordinary setting and keeps the flag key, `hardReset` clears the flag key too. -/
theorem C21_reset_keeps_flags_witness :
    (GlobedSettings.reset GlobedSettings.sampleSettings).saveContainer "_gsetting-globedtpsCap" =
      none ∧
    (GlobedSettings.reset GlobedSettings.sampleSettings).saveContainer "_gflag-seenSignupNotice" =
      some 1 ∧
    (GlobedSettings.hardReset GlobedSettings.sampleSettings).saveContainer
      "_gflag-seenSignupNotice" = none := by
  obtain ⟨_, hclears, hflags, _, _, hhard, _⟩ :=
    C21_reset_keeps_flags GlobedSettings.sampleSettings
  refine ⟨?_, ?_, ?_⟩
  · exact hclears
      { name := "globed"
        settings := [{ name := "tpsCap", Default := 0, value := 30 },
          { name := "autoconnect", Default := 0, value := 1 }] }
      (by simp [GlobedSettings.sampleSettings]) (by decide)
      { name := "tpsCap", Default := 0, value := 30 } (by simp)
  · exact hflags "seenSignupNotice"
  · exact hhard
      { name := "flags", settings := [{ name := "seenSignupNotice", Default := 0, value := 1 }] }
      (by simp [GlobedSettings.sampleSettings])
      { name := "seenSignupNotice", Default := 0, value := 1 } (by simp)

/-! ## Summary of the packet log -/

namespace util.debugging

theorem PacketCounts.get_of_not_contains (counts : List (Nat × Nat)) (id : Nat)
    (habsent : PacketCounts.contains counts id = false) : PacketCounts.get counts id = 0 := by
  induction counts with
  | nil => rfl
  | cons entry rest ih =>
    obtain ⟨key, count⟩ := entry
    by_cases hkey : key = id
    · simp [PacketCounts.contains, hkey] at habsent
    · simp only [PacketCounts.contains, hkey, if_false] at habsent
      simp only [PacketCounts.get, hkey, if_false]
      exact ih habsent

theorem PacketCounts.get_assign (counts : List (Nat × Nat)) (id value other : Nat) :
    PacketCounts.get (PacketCounts.assign counts id value) other =
      if other = id then value else PacketCounts.get counts other := by
  induction counts with
  | nil =>
    by_cases hother : other = id
    · simp [PacketCounts.assign, PacketCounts.get, hother]
    · simp [PacketCounts.assign, PacketCounts.get, hother, Ne.symm hother]
  | cons entry rest ih =>
    obtain ⟨key, count⟩ := entry
    by_cases hkey : key = id
    · subst hkey
      by_cases hother : other = key
      · simp [PacketCounts.assign, PacketCounts.get, hother]
      · simp [PacketCounts.assign, PacketCounts.get, hother, Ne.symm hother]
    · by_cases hother : key = other
      · subst hother
        simp [PacketCounts.assign, PacketCounts.get, hkey]
      · simp [PacketCounts.assign, PacketCounts.get, hkey, hother, ih]

theorem PacketCounts.sum_assign (counts : List (Nat × Nat)) (id value : Nat) :
    ((PacketCounts.assign counts id value).map Prod.snd).sum + PacketCounts.get counts id =
      (counts.map Prod.snd).sum + value := by
  induction counts with
  | nil => simp [PacketCounts.assign, PacketCounts.get]
  | cons entry rest ih =>
    obtain ⟨key, count⟩ := entry
    by_cases hkey : key = id
    · simp [PacketCounts.assign, PacketCounts.get, hkey]
      omega
    · simp only [PacketCounts.assign, PacketCounts.get, hkey, if_false, List.map_cons,
        List.sum_cons]
      omega

theorem PacketCounts.get_after_iteration (counts : List (Nat × Nat)) (id other : Nat) :
    PacketCounts.get
        (PacketCounts.assign
          (if !(PacketCounts.contains counts id) then PacketCounts.assign counts id 0 else counts)
          id
          (PacketCounts.get
            (if !(PacketCounts.contains counts id) then PacketCounts.assign counts id 0
              else counts) id + 1)) other =
      PacketCounts.get counts other + if other = id then 1 else 0 := by
  cases hcontains : PacketCounts.contains counts id with
  | true =>
    simp only [Bool.not_true, Bool.false_eq_true, if_false]
    rw [PacketCounts.get_assign]
    by_cases hother : other = id
    · simp [hother]
    · simp [hother]
  | false =>
    have hzero := PacketCounts.get_of_not_contains counts id hcontains
    simp only [Bool.not_false, if_true]
    by_cases hother : other = id
    · simp [PacketCounts.get_assign, hother, hzero]
    · simp [PacketCounts.get_assign, hother]

theorem PacketCounts.sum_after_iteration (counts : List (Nat × Nat)) (id : Nat) :
    ((PacketCounts.assign
          (if !(PacketCounts.contains counts id) then PacketCounts.assign counts id 0 else counts)
          id
          (PacketCounts.get
            (if !(PacketCounts.contains counts id) then PacketCounts.assign counts id 0
              else counts) id + 1)).map Prod.snd).sum =
      (counts.map Prod.snd).sum + 1 := by
  cases hcontains : PacketCounts.contains counts id with
  | true =>
    simp only [Bool.not_true, Bool.false_eq_true, if_false]
    have hsum := PacketCounts.sum_assign counts id (PacketCounts.get counts id + 1)
    omega
  | false =>
    have hzero := PacketCounts.get_of_not_contains counts id hcontains
    simp only [Bool.not_false, if_true]
    have hfirst := PacketCounts.sum_assign counts id 0
    have hsecond := PacketCounts.sum_assign (PacketCounts.assign counts id 0) id
      (PacketCounts.get (PacketCounts.assign counts id 0) id + 1)
    omega

theorem PacketLogger.logStep_fields (summary : PacketLogSummary) (log : PacketLog) :
    (PacketLogger.logStep summary log).total = summary.total + 1 ∧
    (PacketLogger.logStep summary log).totalBytes = summary.totalBytes + log.bytes ∧
    (PacketLogger.logStep summary log).totalOut =
      summary.totalOut + (if log.outgoing then 1 else 0) ∧
    (PacketLogger.logStep summary log).totalIn =
      summary.totalIn + (if log.outgoing then 0 else 1) ∧
    (PacketLogger.logStep summary log).totalBytesOut =
      summary.totalBytesOut + (if log.outgoing then log.bytes else 0) ∧
    (PacketLogger.logStep summary log).totalBytesIn =
      summary.totalBytesIn + (if log.outgoing then 0 else log.bytes) ∧
    (PacketLogger.logStep summary log).totalEncrypted =
      summary.totalEncrypted + (if log.encrypted then 1 else 0) ∧
    (PacketLogger.logStep summary log).totalCleartext =
      summary.totalCleartext + (if log.encrypted then 0 else 1) ∧
    (PacketLogger.logStep summary log).packetCounts =
      PacketCounts.assign
        (if !(PacketCounts.contains summary.packetCounts log.id) then
          PacketCounts.assign summary.packetCounts log.id 0 else summary.packetCounts)
        log.id
        (PacketCounts.get
          (if !(PacketCounts.contains summary.packetCounts log.id) then
            PacketCounts.assign summary.packetCounts log.id 0 else summary.packetCounts)
          log.id + 1) := by
  unfold PacketLogger.logStep
  cases hout : log.outgoing <;> cases henc : log.encrypted <;>
    cases hcontains : PacketCounts.contains summary.packetCounts log.id <;>
    simp [hcontains]

/-- The counters after the loop of `getSummary`, started from any summary. -/
theorem PacketLogger.foldl_logStep (queue : List PacketLog) (summary : PacketLogSummary) :
    (queue.foldl PacketLogger.logStep summary).total = summary.total + queue.length ∧
    (queue.foldl PacketLogger.logStep summary).totalBytes =
      summary.totalBytes + (queue.map (fun log => log.bytes)).sum ∧
    (queue.foldl PacketLogger.logStep summary).totalOut =
      summary.totalOut + queue.countP (fun log => log.outgoing) ∧
    (queue.foldl PacketLogger.logStep summary).totalIn =
      summary.totalIn + queue.countP (fun log => !log.outgoing) ∧
    (queue.foldl PacketLogger.logStep summary).totalBytesOut =
      summary.totalBytesOut +
        ((queue.filter (fun log => log.outgoing)).map (fun log => log.bytes)).sum ∧
    (queue.foldl PacketLogger.logStep summary).totalBytesIn =
      summary.totalBytesIn +
        ((queue.filter (fun log => !log.outgoing)).map (fun log => log.bytes)).sum ∧
    (queue.foldl PacketLogger.logStep summary).totalEncrypted =
      summary.totalEncrypted + queue.countP (fun log => log.encrypted) ∧
    (queue.foldl PacketLogger.logStep summary).totalCleartext =
      summary.totalCleartext + queue.countP (fun log => !log.encrypted) ∧
    (∀ id, PacketCounts.get (queue.foldl PacketLogger.logStep summary).packetCounts id =
      PacketCounts.get summary.packetCounts id + queue.countP (fun log => decide (log.id = id))) ∧
    ((queue.foldl PacketLogger.logStep summary).packetCounts.map Prod.snd).sum =
      (summary.packetCounts.map Prod.snd).sum + queue.length := by
  induction queue generalizing summary with
  | nil => simp
  | cons log rest ih =>
    obtain ⟨htotal, hbytes, hout, hin, hbytesOut, hbytesIn, henc, hclear, hcounts⟩ :=
      PacketLogger.logStep_fields summary log
    obtain ⟨itotal, ibytes, iout, iin, ibytesOut, ibytesIn, ienc, iclear, iget, isum⟩ :=
      ih (PacketLogger.logStep summary log)
    simp only [List.foldl_cons]
    refine ⟨?_, ?_, ?_, ?_, ?_, ?_, ?_, ?_, ?_, ?_⟩
    · rw [itotal, htotal, List.length_cons]
      omega
    · rw [ibytes, hbytes, List.map_cons, List.sum_cons]
      omega
    · rw [iout, hout]
      cases hflag : log.outgoing <;> simp [List.countP_cons, hflag]
      all_goals omega
    · rw [iin, hin]
      cases hflag : log.outgoing <;> simp [List.countP_cons, hflag]
      all_goals omega
    · rw [ibytesOut, hbytesOut]
      cases hflag : log.outgoing <;> simp [List.filter_cons, hflag]
      all_goals omega
    · rw [ibytesIn, hbytesIn]
      cases hflag : log.outgoing <;> simp [List.filter_cons, hflag]
      all_goals omega
    · rw [ienc, henc]
      cases hflag : log.encrypted <;> simp [List.countP_cons, hflag]
      all_goals omega
    · rw [iclear, hclear]
      cases hflag : log.encrypted <;> simp [List.countP_cons, hflag]
      all_goals omega
    · intro id
      rw [iget, hcounts, PacketCounts.get_after_iteration]
      by_cases hid : id = log.id
      · simp [List.countP_cons, hid]
        omega
      · simp [List.countP_cons, hid, Ne.symm hid]
    · rw [isum, hcounts, PacketCounts.sum_after_iteration, List.length_cons]
      omega

theorem sum_bytes_split (queue : List PacketLog) :
    ((queue.filter (fun log => !log.outgoing)).map (fun log => log.bytes)).sum +
      ((queue.filter (fun log => log.outgoing)).map (fun log => log.bytes)).sum =
      (queue.map (fun log => log.bytes)).sum := by
  induction queue with
  | nil => rfl
  | cons log rest ih =>
    cases hflag : log.outgoing <;> simp [List.filter_cons, hflag] <;> omega

theorem countP_split (queue : List PacketLog) (flag : PacketLog → Bool) :
    queue.countP (fun log => !flag log) + queue.countP flag = queue.length := by
  induction queue with
  | nil => rfl
  | cons log rest ih =>
    cases hflag : flag log <;> simp [List.countP_cons, hflag] <;> omega

end util.debugging

open util.debugging

/-- C25 (as stated) fails on an empty log: `getSummary` then divides by a total of 0 for
both `bytesPerPacket` and `encryptedRatio`. -/
theorem C25_getSummary_totals_counterexample :
    (PacketLogger.getSummary []).summary.total = 0 ∧
    (PacketLogger.getSummary []).divisions = [(0, 0), (0, 0)] ∧
    ¬ (∀ division ∈ (PacketLogger.getSummary []).divisions, division.2 ≠ 0) := by
  have hdivisions : (PacketLogger.getSummary []).divisions = [(0, 0), (0, 0)] := by
    simp [PacketLogger.getSummary, PacketLogSummary.zero]
  refine ⟨rfl, hdivisions, ?_⟩
  rw [hdivisions]
  simp

/-- C25 (amended): for every sequence of logged packets, `getSummary` gives `total` equal to
the number of entries, `total = totalIn + totalOut`, `total = totalEncrypted +
totalCleartext`, `totalBytes = totalBytesIn + totalBytesOut` equal to the sum of the entries'
byte counts, values of `packetCounts` that sum to `total`, and `packetCounts[id]` equal to
the number of entries with that id.  `bytesPerPacket` is `totalBytes / total` and
`encryptedRatio` is `totalEncrypted / total`; the divisor `total` is non-zero exactly when the
sequence is not empty, and `print` reads the two ratios only in that case. -/
theorem C25_getSummary_totals (queue : List util.debugging.PacketLog) :
    (PacketLogger.getSummary queue).summary.total = queue.length ∧
    (PacketLogger.getSummary queue).summary.total =
      (PacketLogger.getSummary queue).summary.totalIn +
        (PacketLogger.getSummary queue).summary.totalOut ∧
    (PacketLogger.getSummary queue).summary.total =
      (PacketLogger.getSummary queue).summary.totalEncrypted +
        (PacketLogger.getSummary queue).summary.totalCleartext ∧
    (PacketLogger.getSummary queue).summary.totalBytes =
      (PacketLogger.getSummary queue).summary.totalBytesIn +
        (PacketLogger.getSummary queue).summary.totalBytesOut ∧
    (PacketLogger.getSummary queue).summary.totalBytes =
      (queue.map (fun log => log.bytes)).sum ∧
    ((PacketLogger.getSummary queue).summary.packetCounts.map Prod.snd).sum =
      (PacketLogger.getSummary queue).summary.total ∧
    (∀ id, PacketCounts.get (PacketLogger.getSummary queue).summary.packetCounts id =
      queue.countP (fun log => decide (log.id = id))) ∧
    (PacketLogger.getSummary queue).summary.bytesPerPacket =
      ((PacketLogger.getSummary queue).summary.totalBytes : ℚ) /
        ((PacketLogger.getSummary queue).summary.total : ℚ) ∧
    (PacketLogger.getSummary queue).summary.encryptedRatio =
      ((PacketLogger.getSummary queue).summary.totalEncrypted : ℚ) /
        ((PacketLogger.getSummary queue).summary.total : ℚ) ∧
    (PacketLogger.getSummary queue).divisions =
      [(((PacketLogger.getSummary queue).summary.totalBytes : ℚ),
          ((PacketLogger.getSummary queue).summary.total : ℚ)),
        (((PacketLogger.getSummary queue).summary.totalEncrypted : ℚ),
          ((PacketLogger.getSummary queue).summary.total : ℚ))] ∧
    ((∀ division ∈ (PacketLogger.getSummary queue).divisions, division.2 ≠ 0) ↔ queue ≠ []) ∧
    ((PacketLogger.getSummary queue).summary.printUsesRatios = true ↔ queue ≠ []) := by
  obtain ⟨htotal, hbytes, hout, hin, hbytesOut, hbytesIn, henc, hclear, hget, hsum⟩ :=
    PacketLogger.foldl_logStep queue PacketLogSummary.zero
  have hsplitBytes := sum_bytes_split queue
  have hsplitOut := countP_split queue (fun log => log.outgoing)
  have hsplitEnc := countP_split queue (fun log => log.encrypted)
  have hlength : (PacketLogger.getSummary queue).summary.total = queue.length := by
    show (queue.foldl PacketLogger.logStep PacketLogSummary.zero).total = queue.length
    rw [htotal]
    simp [PacketLogSummary.zero]
  have hnonzero : ((PacketLogger.getSummary queue).summary.total : ℚ) ≠ 0 ↔ queue ≠ [] := by
    rw [hlength]
    simp
  refine ⟨hlength, ?_, ?_, ?_, ?_, ?_, ?_, rfl, rfl, rfl, ?_, ?_⟩
  · show (queue.foldl PacketLogger.logStep PacketLogSummary.zero).total =
      (queue.foldl PacketLogger.logStep PacketLogSummary.zero).totalIn +
        (queue.foldl PacketLogger.logStep PacketLogSummary.zero).totalOut
    rw [htotal, hin, hout]
    simp only [PacketLogSummary.zero]
    omega
  · show (queue.foldl PacketLogger.logStep PacketLogSummary.zero).total =
      (queue.foldl PacketLogger.logStep PacketLogSummary.zero).totalEncrypted +
        (queue.foldl PacketLogger.logStep PacketLogSummary.zero).totalCleartext
    rw [htotal, henc, hclear]
    simp only [PacketLogSummary.zero]
    omega
  · show (queue.foldl PacketLogger.logStep PacketLogSummary.zero).totalBytes =
      (queue.foldl PacketLogger.logStep PacketLogSummary.zero).totalBytesIn +
        (queue.foldl PacketLogger.logStep PacketLogSummary.zero).totalBytesOut
    rw [hbytes, hbytesIn, hbytesOut]
    simp only [PacketLogSummary.zero]
    omega
  · show (queue.foldl PacketLogger.logStep PacketLogSummary.zero).totalBytes = _
    rw [hbytes]
    simp [PacketLogSummary.zero]
  · show ((queue.foldl PacketLogger.logStep PacketLogSummary.zero).packetCounts.map
      Prod.snd).sum = (queue.foldl PacketLogger.logStep PacketLogSummary.zero).total
    rw [hsum, htotal]
    simp [PacketLogSummary.zero]
  · intro id
    show PacketCounts.get (queue.foldl PacketLogger.logStep PacketLogSummary.zero).packetCounts
      id = _
    rw [hget]
    simp [PacketLogSummary.zero, PacketCounts.get]
  · have hdivisions : (PacketLogger.getSummary queue).divisions =
        [(((PacketLogger.getSummary queue).summary.totalBytes : ℚ),
            ((PacketLogger.getSummary queue).summary.total : ℚ)),
          (((PacketLogger.getSummary queue).summary.totalEncrypted : ℚ),
            ((PacketLogger.getSummary queue).summary.total : ℚ))] := rfl
    rw [hdivisions, ← hnonzero]
    simp
  · unfold PacketLogSummary.printUsesRatios
    rw [hlength]
    cases queue <;> simp

/-- C25 (amended) applied to a log of three packets. -/
theorem C25_getSummary_totals_witness :
    sampleLog ≠ [] ∧
    (PacketLogger.getSummary sampleLog).summary.total = 3 ∧
    (∀ division ∈ (PacketLogger.getSummary sampleLog).divisions, division.2 ≠ 0) ∧
    PacketCounts.get (PacketLogger.getSummary sampleLog).summary.packetCounts 20000 = 2 := by
  obtain ⟨htotal, _, _, _, _, _, hcounts, _, _, _, hdivisor, _⟩ :=
    C25_getSummary_totals sampleLog
  have hnonempty : sampleLog ≠ [] := by decide
  exact ⟨hnonempty, htotal, hdivisor.mpr hnonempty, hcounts 20000⟩

end Globed
